import Mathlib

/-!
Verification of the MealSync backend's AI generation / matching / aggregation core.

This file gives a shallow embedding, in Lean 4, of the algorithmic core of the
MealSync backend (`app/services/ai_service.py`,
`app/repositories/grocery_list_repository.py`,
`app/repositories/ingredient_repository.py`, `app/core/middleware.py`,
`app/core/exception.py`), and proves properties of that embedding.

Modelling conventions:
* Python floats are modelled as exact rationals (`ℚ`); `round(x, 2)` is modelled
  as exact decimal rounding with ties to even, which agrees with Python on all
  inputs whose value is exactly representable.
* Database rows are modelled as Lean structures; SQLAlchemy queries are modelled
  by taking their result lists as parameters (with ordering hypotheses where the
  query specifies an ORDER BY).
* The external Gemini call is modelled as an explicit parameter
  (`Except String String`: either the raw response text or the stringified
  exception); functions that may invoke it also return the number of times the
  external model was invoked where a claim needs it.
* Python string `.lower()` is modelled by `Char.toLower` (ASCII case folding).
* `difflib.SequenceMatcher` is modelled without junk heuristics; the autojunk
  heuristic only activates when the second sequence has at least 200 elements,
  so the model agrees with Python on all shorter names.
-/

namespace MealSync

/-- Enumerated ingredient categories, from `app/models/ingredient.py`
(`IngredientCategory`). -/
inductive IngredientCategory where
  | produce
  | meat
  | seafood
  | dairy
  | bakery
  | pantry
  | spices
  | beverages
  | frozen
  | snacks
  | other
deriving DecidableEq, Repr

/-- Enumerated units of measurement, from `app/models/ingredient.py`
(`UnitOfMeasurement`). -/
inductive UnitOfMeasurement where
  | gram
  | kilogram
  | ounce
  | pound
  | milliliter
  | liter
  | teaspoon
  | tablespoon
  | cup
  | pint
  | quart
  | gallon
  | piece
  | slice
  | clove
  | package
  | can
  | bunch
  | toTaste
  | asNeeded
deriving DecidableEq, Repr

/-- A household ingredient row (`app/models/ingredient.py`, class `Ingredient`):
the fields the matcher reads. `category` is nullable in the schema. -/
structure Ingredient where
  id : Nat
  name : String
  category : Option IngredientCategory
deriving DecidableEq, Repr

/-- Python `str.lower()` restricted to ASCII case folding. -/
def pyLower (s : String) : String :=
  ⟨s.data.map Char.toLower⟩

/-- Length of the longest common run at the heads of two character lists
(the core comparison step of `difflib` block finding). -/
def matchLen : List Char → List Char → Nat
  | a :: as, b :: bs => if a = b then matchLen as bs + 1 else 0
  | _, _ => 0

/-- Model of `difflib.SequenceMatcher.find_longest_match` on the index ranges
`[alo, ahi)` of `a` and `[blo, bhi)` of `b`, with an empty junk set: returns
`(i, j, k)`, the longest matching block, preferring the smallest start in `a`
and then the smallest start in `b` (the block difflib records first). -/
def findLongestMatch (a b : List Char) (alo ahi blo bhi : Nat) : Nat × Nat × Nat :=
  (List.range' alo (ahi - alo)).foldl
    (fun best i =>
      (List.range' blo (bhi - blo)).foldl
        (fun best2 j =>
          let k := matchLen ((a.drop i).take (ahi - i)) ((b.drop j).take (bhi - j))
          if best2.2.2 < k then (i, j, k) else best2)
        best)
    (alo, blo, 0)

/-- Total size of the matching blocks of `difflib.SequenceMatcher`
(`get_matching_blocks` recursion), fuelled; every recursive call strictly
shrinks the index ranges, so fuel `(ahi - alo) + (bhi - blo) + 1` is enough. -/
def matchingBlocksTotal (a b : List Char) : Nat → Nat → Nat → Nat → Nat → Nat
  | 0, _, _, _, _ => 0
  | fuel + 1, alo, ahi, blo, bhi =>
    let r := findLongestMatch a b alo ahi blo bhi
    if r.2.2 = 0 then 0
    else
      r.2.2 + matchingBlocksTotal a b fuel alo r.1 blo r.2.1
        + matchingBlocksTotal a b fuel (r.1 + r.2.2) ahi (r.2.1 + r.2.2) bhi

/-- Model of `difflib.SequenceMatcher(None, sa, sb).ratio()`:
`2 * M / (len sa + len sb)` with `M` the total matched size, and `1.0` when both
strings are empty (difflib `_calculate_ratio`). -/
def sequenceMatcherRatio (sa sb : String) : ℚ :=
  let a := sa.data
  let b := sb.data
  let total := a.length + b.length
  if total = 0 then 1
  else mkRat (2 * matchingBlocksTotal a b (total + 1) 0 a.length 0 b.length) total

/-- The fuzzy-match acceptance threshold of `_match_ingredient_to_household`
(`threshold = 0.85`). -/
def matchThreshold : ℚ :=
  mkRat 17 20

/-- The category guard of the fuzzy loop in `_match_ingredient_to_household`:
Python skips an entry when `category and ing.category != category`
(`category` is an optional enum whose members are all truthy). -/
def categoryOk (category : Option IngredientCategory) (ing : Ingredient) : Bool :=
  match category with
  | none => true
  | some c => ing.category = some c

/-- One iteration of the fuzzy loop of `_match_ingredient_to_household`
(`ai_service.py` lines 875-886): update the running best when
`score > best_score and score >= threshold` with threshold `0.85`. -/
def fuzzyStep (sim : String → String → ℚ) (ingredientName : String)
    (acc : Option Nat × ℚ) (ing : Ingredient) : Option Nat × ℚ :=
  let score := sim (pyLower ingredientName) (pyLower ing.name)
  if acc.2 < score ∧ matchThreshold ≤ score then (some ing.id, score) else acc

/-- One fuzzy-loop iteration including the category guard. -/
def fuzzyFoldStep (sim : String → String → ℚ) (ingredientName : String)
    (category : Option IngredientCategory) (acc : Option Nat × ℚ) (ing : Ingredient) :
    Option Nat × ℚ :=
  if categoryOk category ing then fuzzyStep sim ingredientName acc ing else acc

/-- Model of `AIService._match_ingredient_to_household` (`ai_service.py`
lines 846-887), generic in the similarity function. `catalog` is the list
returned by `IngredientRepository.get_by_household` (ordered by name).
The exact pass compares every entry case-insensitively and returns
`(entry.id, 1.0)` for the first equality; the fuzzy pass otherwise folds
`fuzzyFoldStep` over the catalog starting from `(None, 0.0)`. -/
def matchIngredientCore (sim : String → String → ℚ) (ingredientName : String)
    (catalog : List Ingredient) (category : Option IngredientCategory) :
    Option Nat × ℚ :=
  match catalog.find? (fun ing => pyLower ing.name = pyLower ingredientName) with
  | some ing => (some ing.id, 1)
  | none =>
    catalog.foldl (fuzzyFoldStep sim ingredientName category) (none, 0)

/-- `AIService._match_ingredient_to_household` with the actual
`SequenceMatcher` similarity. -/
def matchIngredientToHousehold (ingredientName : String) (catalog : List Ingredient)
    (category : Option IngredientCategory) : Option Nat × ℚ :=
  matchIngredientCore sequenceMatcherRatio ingredientName catalog category

set_option maxRecDepth 8000

lemma fuzzyFold_stays_none (sim : String → String → ℚ) (ingredientName : String)
    (category : Option IngredientCategory) :
    ∀ l : List Ingredient,
      (∀ ing ∈ l, categoryOk category ing = true →
        sim (pyLower ingredientName) (pyLower ing.name) < matchThreshold) →
      l.foldl (fuzzyFoldStep sim ingredientName category) ((none : Option Nat), (0 : ℚ)) =
        (none, 0) := by
  intro l
  induction l with
  | nil => intro _; rfl
  | cons a l ih =>
    intro h
    have ha := h a (List.mem_cons_self a l)
    have hstep : fuzzyFoldStep sim ingredientName category (none, 0) a = (none, 0) := by
      simp only [fuzzyFoldStep, fuzzyStep]
      by_cases hc : categoryOk category a = true
      · rw [if_pos hc, if_neg]
        intro hcond
        exact absurd hcond.2 (not_le.mpr (ha hc))
      · rw [if_neg hc]
    rw [List.foldl_cons, hstep]
    exact ih fun ing hi => h ing (List.mem_cons_of_mem a hi)

lemma fuzzyFold_confidence (sim : String → String → ℚ) (ingredientName : String)
    (category : Option IngredientCategory) :
    ∀ (l : List Ingredient) (acc : Option Nat × ℚ),
      (acc = (none, 0) ∨ matchThreshold ≤ acc.2) →
      l.foldl (fuzzyFoldStep sim ingredientName category) acc = (none, 0) ∨
        matchThreshold ≤ (l.foldl (fuzzyFoldStep sim ingredientName category) acc).2 := by
  intro l
  induction l with
  | nil => intro acc hacc; exact hacc
  | cons a l ih =>
    intro acc hacc
    rw [List.foldl_cons]
    refine ih _ ?_
    simp only [fuzzyFoldStep, fuzzyStep]
    by_cases hc : categoryOk category a = true
    · rw [if_pos hc]
      by_cases hcond : acc.2 < sim (pyLower ingredientName) (pyLower a.name) ∧
          matchThreshold ≤ sim (pyLower ingredientName) (pyLower a.name)
      · rw [if_pos hcond]
        exact Or.inr hcond.2
      · rw [if_neg hcond]
        exact hacc
    · rw [if_neg hc]
      exact hacc

lemma fuzzyFold_id_mem (sim : String → String → ℚ) (ingredientName : String)
    (category : Option IngredientCategory) :
    ∀ (l : List Ingredient) (acc : Option Nat × ℚ) (i : Nat),
      (l.foldl (fuzzyFoldStep sim ingredientName category) acc).1 = some i →
      acc.1 = some i ∨ ∃ ing ∈ l, ing.id = i := by
  intro l
  induction l with
  | nil => intro acc i h; exact Or.inl h
  | cons a l ih =>
    intro acc i h
    rw [List.foldl_cons] at h
    rcases ih _ i h with h1 | h2
    · simp only [fuzzyFoldStep, fuzzyStep] at h1
      by_cases hc : categoryOk category a = true
      · rw [if_pos hc] at h1
        by_cases hcond : acc.2 < sim (pyLower ingredientName) (pyLower a.name) ∧
            matchThreshold ≤ sim (pyLower ingredientName) (pyLower a.name)
        · rw [if_pos hcond] at h1
          refine Or.inr ⟨a, List.mem_cons_self a l, ?_⟩
          simpa using h1
        · rw [if_neg hcond] at h1
          exact Or.inl h1
      · rw [if_neg hc] at h1
        exact Or.inl h1
    · obtain ⟨ing, hmem, hid⟩ := h2
      exact Or.inr ⟨ing, List.mem_cons_of_mem a hmem, hid⟩

lemma matchIngredient_id_mem (sim : String → String → ℚ) (ingredientName : String)
    (catalog : List Ingredient) (category : Option IngredientCategory) (i : Nat) :
    (matchIngredientCore sim ingredientName catalog category).1 = some i →
    ∃ ing ∈ catalog, ing.id = i := by
  unfold matchIngredientCore
  cases hf : catalog.find? (fun ing => pyLower ing.name = pyLower ingredientName) with
  | some e =>
    intro h
    refine ⟨e, List.mem_of_find?_eq_some hf, ?_⟩
    simpa using h
  | none =>
    intro h
    rcases fuzzyFold_id_mem sim ingredientName category catalog (none, 0) i h with h1 | h2
    · exact absurd h1 (by simp)
    · exact h2

/-- Code-point lexicographic order on names, modelling the `ORDER BY
Ingredient.name` clause of `IngredientRepository.get_by_household`. -/
def nameListLe : List Char → List Char → Bool
  | [], _ => true
  | _ :: _, [] => false
  | a :: as, b :: bs => if a < b then true else if b < a then false else nameListLe as bs

/-- C1: for every household catalog (as returned by
`IngredientRepository.get_by_household`, alphabetically ordered by name) and
every optional category filter, if some catalog entry's name equals the
candidate name case-insensitively, the match operation returns the first such
entry's id (first in catalog iteration order) with confidence exactly `1.0`,
and the similarity pass is skipped entirely: the result is the same for every
similarity function. -/
theorem c1_exact_match (ingredientName : String) (catalog : List Ingredient)
    (category : Option IngredientCategory) (e : Ingredient)
    (_hsorted : catalog.Pairwise (fun i j => nameListLe i.name.data j.name.data = true))
    (hfirst : catalog.find? (fun ing => pyLower ing.name = pyLower ingredientName) = some e) :
    matchIngredientToHousehold ingredientName catalog category = (some e.id, 1) ∧
      ∀ sim : String → String → ℚ,
        matchIngredientCore sim ingredientName catalog category =
          matchIngredientToHousehold ingredientName catalog category := by
  have hgen : ∀ sim : String → String → ℚ,
      matchIngredientCore sim ingredientName catalog category = (some e.id, 1) := by
    intro sim
    unfold matchIngredientCore
    rw [hfirst]
  refine ⟨hgen sequenceMatcherRatio, fun sim => ?_⟩
  rw [hgen sim]
  exact (hgen sequenceMatcherRatio).symm

/-- C1 witness: a catalog with two case-insensitive matches for "APPLE";
the first alphabetical entry wins with confidence 1, for an arbitrary
(here constant-zero) similarity function as well as the real one. -/
theorem c1_exact_match_witness :
    matchIngredientToHousehold "APPLE" [⟨5, "Apple", none⟩, ⟨7, "apple", none⟩]
        (some IngredientCategory.produce) = (some 5, 1) ∧
      matchIngredientCore (fun _ _ => 0) "APPLE" [⟨5, "Apple", none⟩, ⟨7, "apple", none⟩]
        (some IngredientCategory.produce) = (some 5, 1) := by
  have h := c1_exact_match "APPLE" [⟨5, "Apple", none⟩, ⟨7, "apple", none⟩]
    (some IngredientCategory.produce) ⟨5, "Apple", none⟩ (by decide) (by decide)
  exact ⟨h.1, (h.2 (fun _ _ => 0)).trans h.1⟩

/-- C2: the match operation returns `(None, 0.0)` whenever no entry matches
exactly (case-insensitively) and no considered (category-filtered) entry
reaches similarity `0.85`; conversely, whenever it returns a present id the
returned confidence is exactly `1` or at least `0.85` (`matchThreshold`). -/
theorem c2_confidence_contract (ingredientName : String) (catalog : List Ingredient)
    (category : Option IngredientCategory) :
    ((catalog.find? (fun ing => pyLower ing.name = pyLower ingredientName) = none ∧
        ∀ ing ∈ catalog, categoryOk category ing = true →
          sequenceMatcherRatio (pyLower ingredientName) (pyLower ing.name) < matchThreshold) →
      matchIngredientToHousehold ingredientName catalog category = (none, 0)) ∧
    ∀ i : Nat, (matchIngredientToHousehold ingredientName catalog category).1 = some i →
      (matchIngredientToHousehold ingredientName catalog category).2 = 1 ∨
        matchThreshold ≤ (matchIngredientToHousehold ingredientName catalog category).2 := by
  constructor
  · rintro ⟨hnone, hbelow⟩
    unfold matchIngredientToHousehold matchIngredientCore
    rw [hnone]
    exact fuzzyFold_stays_none sequenceMatcherRatio ingredientName category catalog hbelow
  · intro i hi
    unfold matchIngredientToHousehold matchIngredientCore at hi ⊢
    cases hf : catalog.find? (fun ing => pyLower ing.name = pyLower ingredientName) with
    | some e => exact Or.inl rfl
    | none =>
      rw [hf] at hi
      have hi2 : (catalog.foldl (fuzzyFoldStep sequenceMatcherRatio ingredientName category)
          (none, 0)).1 = some i := hi
      rcases fuzzyFold_confidence sequenceMatcherRatio ingredientName category catalog
          (none, 0) (Or.inl rfl) with h1 | h2
      · rw [h1] at hi2
        exact absurd hi2 (by simp)
      · exact Or.inr h2

/-- C2 witness: an unrelated one-entry catalog gives `(None, 0.0)`. -/
theorem c2_confidence_contract_witness :
    matchIngredientToHousehold "ab" [⟨1, "xy", none⟩] none = (none, 0) :=
  (c2_confidence_contract "ab" [⟨1, "xy", none⟩] none).1 (by decide)

/-! ## Aggregation engine (`GroceryListRepository.generate_from_meals`) -/

/-- The ingredient row joined onto a recipe line
(`recipe_ingredient.ingredient`): the fields the aggregation reads. -/
structure IngredientInfo where
  name : String
  category : Option IngredientCategory
  average_price : Option ℚ
deriving DecidableEq, Repr

/-- A `RecipeIngredient` row (`app/models/ingredient.py`) with its joined
ingredient. -/
structure RecipeIngredient where
  ingredient_id : Nat
  quantity : ℚ
  unit : UnitOfMeasurement
  notes : Option String
  is_optional : Bool
  ingredient : IngredientInfo
deriving DecidableEq, Repr

/-- A `Recipe` row: the fields `generate_from_meals` reads.
`servings` is an `Integer, default=1, nullable=False` column. -/
structure Recipe where
  servings : ℤ
  ingredients : List RecipeIngredient
deriving DecidableEq, Repr

/-- A `Meal` row with its (optional) joined recipe; the aggregation reads
only `servings` and `recipe` (`meal_date` is used only for the list's
start/end dates, which no claim concerns). -/
structure Meal where
  servings : ℤ
  recipe : Option Recipe
deriving DecidableEq, Repr

/-- A produced `GroceryListItem` row (the fields set by
`generate_from_meals`, `grocery_list_repository.py` lines 198-208). -/
structure GroceryListItem where
  ingredient_id : Nat
  name : String
  quantity : ℚ
  unit : UnitOfMeasurement
  category : Option IngredientCategory
  notes : Option String
  estimated_price : Option ℚ
deriving DecidableEq, Repr

/-- The serving multiplier of `generate_from_meals` line 175:
`meal.servings / meal.recipe.servings if meal.recipe.servings else 1`;
a falsy (zero) recipe servings silently yields multiplier 1. -/
def servingsMultiplier (m : Meal) (r : Recipe) : ℚ :=
  if r.servings = 0 then 1 else (m.servings : ℚ) / (r.servings : ℚ)

/-- Rounding to the nearest integer with ties to even: the behaviour of
Python 3 `round` on exactly representable values. -/
def roundHalfEven (q : ℚ) : ℤ :=
  if q - Int.floor q < 1 / 2 then Int.floor q
  else if 1 / 2 < q - Int.floor q then Int.floor q + 1
  else if Int.floor q % 2 = 0 then Int.floor q else Int.floor q + 1

/-- Model of Python `round(x, 2)` (line 202): decimal rounding to 2 places
with ties to even, exact on all dyadic (exactly representable) inputs. -/
def pyRound2 (q : ℚ) : ℚ :=
  (roundHalfEven (q * 100) : ℚ) / 100

/-- Modelled from the spec: "round the final sum to 2 decimal places
(half-away-from-zero rounding)" — rounding to the nearest integer with ties
away from zero, to be compared against `pyRound2`. -/
def roundHalfAwayFromZero (q : ℚ) : ℤ :=
  if 0 ≤ q then Int.floor (q + 1 / 2) else -Int.floor (-q + 1 / 2)

/-- Modelled from the spec: half-away-from-zero rounding to 2 decimals. -/
def specRound2 (q : ℚ) : ℚ :=
  (roundHalfAwayFromZero (q * 100) : ℚ) / 100

/-- An entry of the aggregation dictionary `ingredient_map`
(lines 188-194). -/
structure AggEntry where
  ingredient_id : Nat
  ingredient : IngredientInfo
  quantity : ℚ
  unit : UnitOfMeasurement
  notes : Option String
deriving DecidableEq, Repr

/-- The aggregation key `(recipe_ingredient.ingredient_id,
recipe_ingredient.unit)` (line 181). -/
def aggKey (ri : RecipeIngredient) : Nat × UnitOfMeasurement :=
  (ri.ingredient_id, ri.unit)

/-- The aggregation dictionary, modelled as an insertion-ordered association
list (Python dicts preserve insertion order). -/
abbrev AggMap := List ((Nat × UnitOfMeasurement) × AggEntry)

/-- Lines 181-194: add one recipe line's scaled contribution to the map;
an existing key accumulates quantity, a new key appends a fresh entry
carrying the line's ingredient data and notes. -/
def addContribution (mp : AggMap) (ri : RecipeIngredient) (mult : ℚ) : AggMap :=
  if mp.any (fun kv => kv.1 = aggKey ri) then
    mp.map fun kv =>
      if kv.1 = aggKey ri then
        (kv.1, { kv.2 with quantity := kv.2.quantity + ri.quantity * mult })
      else kv
  else
    mp ++ [(aggKey ri, ⟨ri.ingredient_id, ri.ingredient, ri.quantity * mult, ri.unit, ri.notes⟩)]

/-- Lines 170-194, one meal: skip meals without a recipe or with an empty
ingredient list, compute the serving multiplier once, then fold the
non-optional lines into the map (optional lines are skipped, line 178). -/
def mealStep (mp : AggMap) (m : Meal) : AggMap :=
  match m.recipe with
  | none => mp
  | some r =>
    match r.ingredients with
    | [] => mp
    | _ =>
      (r.ingredients.filter fun ri => !ri.is_optional).foldl
        (fun mp2 ri => addContribution mp2 ri (servingsMultiplier m r)) mp

/-- The full `ingredient_map` built from all fetched meals. -/
def buildIngredientMap (meals : List Meal) : AggMap :=
  meals.foldl mealStep []

/-- Lines 197-209: the grocery-list items created from the map. -/
def generateFromMealsItems (meals : List Meal) : List GroceryListItem :=
  (buildIngredientMap meals).map fun kv =>
    { ingredient_id := kv.2.ingredient_id
      name := kv.2.ingredient.name
      quantity := pyRound2 kv.2.quantity
      unit := kv.2.unit
      category := kv.2.ingredient.category
      notes := kv.2.notes
      estimated_price := kv.2.ingredient.average_price }

/-- One meal's (recipe line, serving multiplier) contributions, in
processing order. -/
def mealPairs (m : Meal) : List (RecipeIngredient × ℚ) :=
  match m.recipe with
  | none => []
  | some r =>
    (r.ingredients.filter fun ri => !ri.is_optional).map
      fun ri => (ri, servingsMultiplier m r)

/-- The flat list of (recipe line, serving multiplier) contributions, in
processing order. -/
def contribPairs (meals : List Meal) : List (RecipeIngredient × ℚ) :=
  meals.flatMap mealPairs

/-- The sum, over the `(ingredient_id, unit)` group `k`, of recipe-line
quantity times the meal's serving multiplier. -/
def groupContribution (meals : List Meal) (k : Nat × UnitOfMeasurement) : ℚ :=
  (((contribPairs meals).filter fun p => aggKey p.1 = k).map
    fun p => p.1.quantity * p.2).sum

/-- Adding one contribution pair (the fold step over `contribPairs`). -/
def pairStep (mp : AggMap) (p : RecipeIngredient × ℚ) : AggMap :=
  addContribution mp p.1 p.2

/-- The quantity stored in the map under key `k` (0 when absent). -/
def entryQty (mp : AggMap) (k : Nat × UnitOfMeasurement) : ℚ :=
  match mp.find? (fun kv => kv.1 = k) with
  | some kv => kv.2.quantity
  | none => 0

/-- The map's keys are pairwise distinct (a Python dict invariant). -/
def keysNodup (mp : AggMap) : Prop :=
  (mp.map Prod.fst).Nodup

/-- Every entry's stored id and unit agree with its key. -/
def cohMap (mp : AggMap) : Prop :=
  ∀ kv ∈ mp, kv.2.ingredient_id = kv.1.1 ∧ kv.2.unit = kv.1.2

/-- The sum of the contributions with key `k` in a pair list. -/
def sumPairs (ps : List (RecipeIngredient × ℚ)) (k : Nat × UnitOfMeasurement) : ℚ :=
  ((ps.filter fun p => aggKey p.1 = k).map fun p => p.1.quantity * p.2).sum

lemma find?_update (mp : AggMap) (ri : RecipeIngredient) (mult : ℚ)
    (k : Nat × UnitOfMeasurement) :
    (mp.map fun kv =>
        if kv.1 = aggKey ri then
          (kv.1, { kv.2 with quantity := kv.2.quantity + ri.quantity * mult })
        else kv).find? (fun kv => kv.1 = k) =
      (mp.find? fun kv => kv.1 = k).map fun kv =>
        if kv.1 = aggKey ri then
          (kv.1, { kv.2 with quantity := kv.2.quantity + ri.quantity * mult })
        else kv := by
  induction mp with
  | nil => rfl
  | cons a l ih =>
    rw [List.map_cons]
    have hup : ((if a.1 = aggKey ri then
        (a.1, { a.2 with quantity := a.2.quantity + ri.quantity * mult })
      else a).1) = a.1 := by
      by_cases ha : a.1 = aggKey ri <;> simp [ha]
    by_cases hk : a.1 = k
    · rw [List.find?_cons_of_pos _
          (by simp only [decide_eq_true_eq]; rw [hup]; exact hk),
        List.find?_cons_of_pos _ (by simpa using hk)]
      rfl
    · rw [List.find?_cons_of_neg _
          (by simp only [decide_eq_true_eq]; rw [hup]; exact hk),
        List.find?_cons_of_neg _ (by simpa using hk)]
      exact ih

lemma entryQty_addContribution (mp : AggMap) (ri : RecipeIngredient) (mult : ℚ)
    (k : Nat × UnitOfMeasurement) :
    entryQty (addContribution mp ri mult) k =
      if k = aggKey ri then entryQty mp k + ri.quantity * mult else entryQty mp k := by
  unfold addContribution
  by_cases hany : mp.any (fun kv => kv.1 = aggKey ri) = true
  · rw [if_pos hany]
    unfold entryQty
    rw [find?_update mp ri mult k]
    cases hf : mp.find? (fun kv => kv.1 = k) with
    | none =>
      have hne : ¬k = aggKey ri := by
        intro hke
        subst hke
        obtain ⟨kv, hmem, hkv⟩ := List.any_eq_true.mp hany
        rw [List.find?_eq_none] at hf
        exact hf kv hmem hkv
      simp [hne]
    | some kv =>
      have hkv : kv.1 = k := by simpa using List.find?_some hf
      by_cases hke : k = aggKey ri
      · rw [if_pos hke]
        simp [hkv, hke]
      · rw [if_neg hke]
        have : ¬kv.1 = aggKey ri := by rw [hkv]; exact hke
        simp [this]
  · rw [if_neg hany]
    unfold entryQty
    rw [List.find?_append]
    have hnone : mp.find? (fun kv => kv.1 = aggKey ri) = none := by
      rw [List.find?_eq_none]
      intro kv hmem hkv
      exact hany (List.any_eq_true.mpr ⟨kv, hmem, hkv⟩)
    by_cases hke : k = aggKey ri
    · subst hke
      rw [hnone]
      simp
    · have hsingle : ([((aggKey ri, ⟨ri.ingredient_id, ri.ingredient, ri.quantity * mult,
          ri.unit, ri.notes⟩) : (Nat × UnitOfMeasurement) × AggEntry)].find?
            (fun kv => kv.1 = k)) = none := by
        rw [List.find?_cons_of_neg _
          (by simp only [decide_eq_true_eq]; exact fun he => hke he.symm)]
        rfl
      rw [hsingle, if_neg hke]
      cases mp.find? (fun kv => kv.1 = k) <;> rfl

lemma keys_addContribution (mp : AggMap) (ri : RecipeIngredient) (mult : ℚ) :
    (addContribution mp ri mult).map Prod.fst =
      if mp.any (fun kv => kv.1 = aggKey ri) then mp.map Prod.fst
      else mp.map Prod.fst ++ [aggKey ri] := by
  unfold addContribution
  by_cases hany : mp.any (fun kv => kv.1 = aggKey ri) = true
  · rw [if_pos hany, if_pos hany, List.map_map]
    refine List.map_congr_left fun kv _ => ?_
    by_cases ha : kv.1 = aggKey ri <;> simp [ha]
  · rw [if_neg hany, if_neg hany]
    simp

lemma keysNodup_addContribution (mp : AggMap) (ri : RecipeIngredient) (mult : ℚ)
    (h : keysNodup mp) : keysNodup (addContribution mp ri mult) := by
  unfold keysNodup at h ⊢
  rw [keys_addContribution]
  by_cases hany : mp.any (fun kv => kv.1 = aggKey ri) = true
  · rwa [if_pos hany]
  · rw [if_neg hany]
    refine h.append (List.nodup_singleton _) ?_
    intro x hx hxs
    obtain ⟨kv, hmem, rfl⟩ := List.mem_map.mp hx
    rw [List.mem_singleton] at hxs
    exact hany (List.any_eq_true.mpr ⟨kv, hmem, by simp [hxs]⟩)

lemma cohMap_addContribution (mp : AggMap) (ri : RecipeIngredient) (mult : ℚ)
    (h : cohMap mp) : cohMap (addContribution mp ri mult) := by
  unfold addContribution
  by_cases hany : mp.any (fun kv => kv.1 = aggKey ri) = true
  · rw [if_pos hany]
    intro kv hkv
    obtain ⟨kv0, hmem, rfl⟩ := List.mem_map.mp hkv
    by_cases ha : kv0.1 = aggKey ri
    · rw [if_pos ha]
      exact h kv0 hmem
    · rw [if_neg ha]
      exact h kv0 hmem
  · rw [if_neg hany]
    intro kv hkv
    rcases List.mem_append.mp hkv with hmem | hmem
    · exact h kv hmem
    · rw [List.mem_singleton] at hmem
      subst hmem
      exact ⟨rfl, rfl⟩

lemma foldPairs_props :
    ∀ (ps : List (RecipeIngredient × ℚ)) (mp : AggMap),
      keysNodup mp →
      keysNodup (ps.foldl pairStep mp) ∧
        (cohMap mp → cohMap (ps.foldl pairStep mp)) ∧
        ∀ k, entryQty (ps.foldl pairStep mp) k = entryQty mp k + sumPairs ps k := by
  intro ps
  induction ps with
  | nil =>
    intro mp h
    exact ⟨h, fun hc => hc, fun k => by simp [sumPairs]⟩
  | cons p ps ih =>
    intro mp h
    rw [List.foldl_cons]
    obtain ⟨h1, h2, h3⟩ := ih (pairStep mp p) (keysNodup_addContribution mp p.1 p.2 h)
    refine ⟨h1, fun hc => h2 (cohMap_addContribution mp p.1 p.2 hc), fun k => ?_⟩
    rw [h3 k]
    show entryQty (addContribution mp p.1 p.2) k + sumPairs ps k = _
    rw [entryQty_addContribution]
    by_cases hk : k = aggKey p.1
    · rw [if_pos hk]
      have hs : sumPairs (p :: ps) k = p.1.quantity * p.2 + sumPairs ps k := by
        simp [sumPairs, List.filter_cons, hk.symm]
      rw [hs]
      ring
    · rw [if_neg hk]
      have hs : sumPairs (p :: ps) k = sumPairs ps k := by
        have : ¬aggKey p.1 = k := fun he => hk he.symm
        simp [sumPairs, List.filter_cons, this]
      rw [hs]

lemma find?_eq_of_mem_nodup (mp : AggMap) (kv : (Nat × UnitOfMeasurement) × AggEntry)
    (h : kv ∈ mp) (hn : keysNodup mp) :
    mp.find? (fun x => x.1 = kv.1) = some kv := by
  induction mp with
  | nil => cases h
  | cons a l ih =>
    unfold keysNodup at hn
    rw [List.map_cons, List.nodup_cons] at hn
    rcases List.mem_cons.mp h with rfl | hmem
    · exact List.find?_cons_of_pos _ (by simp)
    · have hne : ¬a.1 = kv.1 := by
        intro he
        exact hn.1 (he ▸ List.mem_map.mpr ⟨kv, hmem, rfl⟩)
      rw [List.find?_cons_of_neg _ (by simpa using hne)]
      exact ih hmem hn.2

lemma mealStep_eq_foldPairs (mp : AggMap) (m : Meal) :
    mealStep mp m = (mealPairs m).foldl pairStep mp := by
  unfold mealStep mealPairs
  cases m.recipe with
  | none => rfl
  | some r =>
    show (match r.ingredients with
      | [] => mp
      | _ => (r.ingredients.filter fun ri => !ri.is_optional).foldl
          (fun mp2 ri => addContribution mp2 ri (servingsMultiplier m r)) mp) =
      ((r.ingredients.filter fun ri => !ri.is_optional).map
        fun ri => (ri, servingsMultiplier m r)).foldl pairStep mp
    cases hri : r.ingredients with
    | nil => rfl
    | cons a l =>
      rw [List.foldl_map]
      rfl

lemma foldl_mealStep_eq :
    ∀ (meals : List Meal) (mp : AggMap),
      meals.foldl mealStep mp = (meals.flatMap mealPairs).foldl pairStep mp := by
  intro meals
  induction meals with
  | nil => intro mp; rfl
  | cons m ms ih =>
    intro mp
    rw [List.foldl_cons, List.flatMap_cons, List.foldl_append, ih, mealStep_eq_foldPairs]

/-- C3 (amended): every output line's quantity is the sum, over its
`(ingredient_id, unit)` group, of recipe-line quantity times the meal's
serving multiplier, rounded to 2 decimal places — but with Python `round`'s
half-to-even (banker's) tie-breaking, not half-away-from-zero. -/
theorem c3_quantity_rounding (meals : List Meal) :
    ∀ item ∈ generateFromMealsItems meals,
      item.quantity = pyRound2 (groupContribution meals (item.ingredient_id, item.unit)) := by
  intro item hitem
  unfold generateFromMealsItems at hitem
  obtain ⟨kv, hkv, rfl⟩ := List.mem_map.mp hitem
  rw [buildIngredientMap, foldl_mealStep_eq] at hkv
  obtain ⟨h1, h2, h3⟩ := foldPairs_props (meals.flatMap mealPairs) []
    (by simp [keysNodup])
  have hcoh := h2 (by intro kv0 h0; cases h0) kv hkv
  have hfind := find?_eq_of_mem_nodup _ kv hkv h1
  have hqty : kv.2.quantity =
      entryQty ((meals.flatMap mealPairs).foldl pairStep []) kv.1 := by
    unfold entryQty
    rw [hfind]
  have hkey : ((kv.2.ingredient_id, kv.2.unit) : Nat × UnitOfMeasurement) = kv.1 := by
    rw [hcoh.1, hcoh.2]
  show pyRound2 kv.2.quantity = _
  rw [hqty, h3 kv.1]
  have hzero : entryQty [] kv.1 = 0 := rfl
  rw [hzero, zero_add]
  have hgroup : groupContribution meals (kv.2.ingredient_id, kv.2.unit) =
      sumPairs (meals.flatMap mealPairs) kv.1 := by
    rw [hkey]
    rfl
  rw [hgroup]

/-- C3 witness: the spec's scaling example — recipe servings 4, one 400 gram
line, meals with servings 4 and 8 — yields one line of 1200, equal to the
rounded group sum. -/
theorem c3_quantity_rounding_witness :
    (⟨7, "flour", 1200, UnitOfMeasurement.gram, some IngredientCategory.pantry,
        none, none⟩ : GroceryListItem) ∈
      generateFromMealsItems
        [⟨4, some ⟨4, [⟨7, 400, UnitOfMeasurement.gram, none, false,
            ⟨"flour", some IngredientCategory.pantry, none⟩⟩]⟩⟩,
         ⟨8, some ⟨4, [⟨7, 400, UnitOfMeasurement.gram, none, false,
            ⟨"flour", some IngredientCategory.pantry, none⟩⟩]⟩⟩] ∧
    (1200 : ℚ) = pyRound2 (groupContribution
        [⟨4, some ⟨4, [⟨7, 400, UnitOfMeasurement.gram, none, false,
            ⟨"flour", some IngredientCategory.pantry, none⟩⟩]⟩⟩,
         ⟨8, some ⟨4, [⟨7, 400, UnitOfMeasurement.gram, none, false,
            ⟨"flour", some IngredientCategory.pantry, none⟩⟩]⟩⟩]
        (7, UnitOfMeasurement.gram)) := by
  have heq : generateFromMealsItems
      [⟨4, some ⟨4, [⟨7, 400, UnitOfMeasurement.gram, none, false,
          ⟨"flour", some IngredientCategory.pantry, none⟩⟩]⟩⟩,
       ⟨8, some ⟨4, [⟨7, 400, UnitOfMeasurement.gram, none, false,
          ⟨"flour", some IngredientCategory.pantry, none⟩⟩]⟩⟩] =
      [⟨7, "flour", 1200, UnitOfMeasurement.gram, some IngredientCategory.pantry,
        none, none⟩] := by
    norm_num [generateFromMealsItems, buildIngredientMap, mealStep, addContribution,
      servingsMultiplier, aggKey, pyRound2, roundHalfEven, List.filter, List.foldl]
  have hmem : (⟨7, "flour", 1200, UnitOfMeasurement.gram,
      some IngredientCategory.pantry, none, none⟩ : GroceryListItem) ∈
      generateFromMealsItems
        [⟨4, some ⟨4, [⟨7, 400, UnitOfMeasurement.gram, none, false,
            ⟨"flour", some IngredientCategory.pantry, none⟩⟩]⟩⟩,
         ⟨8, some ⟨4, [⟨7, 400, UnitOfMeasurement.gram, none, false,
            ⟨"flour", some IngredientCategory.pantry, none⟩⟩]⟩⟩] := by
    rw [heq]
    exact List.mem_singleton.mpr rfl
  exact ⟨hmem, c3_quantity_rounding _ _ hmem⟩

/-- C3 counterexample: on a group summing to 0.125 the code's Python `round`
(ties to even) yields 0.12, while the half-away-from-zero rounding the claim
asserts yields 0.13; the two disagree, so the claim's rounding mode is
refuted at this input. -/
theorem c3_round_mode_counterexample :
    generateFromMealsItems
        [⟨1, some ⟨1, [⟨7, mkRat 1 8, UnitOfMeasurement.gram, none, false,
          ⟨"flour", none, none⟩⟩]⟩⟩] =
      [⟨7, "flour", mkRat 3 25, UnitOfMeasurement.gram, none, none, none⟩] ∧
    groupContribution
        [⟨1, some ⟨1, [⟨7, mkRat 1 8, UnitOfMeasurement.gram, none, false,
          ⟨"flour", none, none⟩⟩]⟩⟩] (7, UnitOfMeasurement.gram) = mkRat 1 8 ∧
    specRound2 (mkRat 1 8) = mkRat 13 100 ∧
    (mkRat 3 25 : ℚ) ≠ mkRat 13 100 := by
  refine ⟨?_, ?_, ?_, by decide⟩
  · norm_num [generateFromMealsItems, buildIngredientMap, mealStep, addContribution,
      servingsMultiplier, aggKey, pyRound2, roundHalfEven, List.filter, List.foldl,
      Rat.mkRat_eq_div, show Int.fract ((25 : ℚ) / 2) = 1 / 2 from by
        rw [Int.fract]
        norm_num]
  · norm_num [groupContribution, contribPairs, mealPairs, servingsMultiplier, aggKey,
      List.filter, Rat.mkRat_eq_div]
  · norm_num [specRound2, roundHalfAwayFromZero, Rat.mkRat_eq_div]

/-- C4 (amended): when a meal's linked recipe has zero servings the
aggregation does not raise any error — the serving multiplier silently falls
back to 1 and the meal's non-optional lines are included unscaled. -/
theorem c4_zero_servings_fallback (m : Meal) (r : Recipe) (hm : m.recipe = some r)
    (hz : r.servings = 0) :
    servingsMultiplier m r = 1 ∧
      mealPairs m = (r.ingredients.filter fun ri => !ri.is_optional).map
        fun ri => (ri, (1 : ℚ)) := by
  have h1 : servingsMultiplier m r = 1 := by
    unfold servingsMultiplier
    rw [if_pos hz]
  refine ⟨h1, ?_⟩
  unfold mealPairs
  rw [hm]
  simp only [h1]

/-- C4 witness: a concrete meal (servings 4) whose recipe has servings 0
contributes its 2 gram line with multiplier 1. -/
theorem c4_zero_servings_fallback_witness :
    servingsMultiplier ⟨4, some ⟨0, [⟨7, 2, UnitOfMeasurement.gram, none, false,
        ⟨"salt", none, none⟩⟩]⟩⟩ ⟨0, [⟨7, 2, UnitOfMeasurement.gram, none, false,
        ⟨"salt", none, none⟩⟩]⟩ = 1 ∧
      mealPairs ⟨4, some ⟨0, [⟨7, 2, UnitOfMeasurement.gram, none, false,
        ⟨"salt", none, none⟩⟩]⟩⟩ =
        [(⟨7, 2, UnitOfMeasurement.gram, none, false, ⟨"salt", none, none⟩⟩, (1 : ℚ))] :=
  c4_zero_servings_fallback _ _ rfl rfl

/-- C4 counterexample: the aggregation over a meal whose recipe has zero
servings succeeds and produces the meal's line (quantity 2, unscaled) — no
`InternalError` is raised and the quantities are silently included, refuting
the claim at this input. -/
theorem c4_zero_servings_counterexample :
    generateFromMealsItems
        [⟨4, some ⟨0, [⟨7, 2, UnitOfMeasurement.gram, none, false,
          ⟨"salt", none, none⟩⟩]⟩⟩] =
      [⟨7, "salt", 2, UnitOfMeasurement.gram, none, none, none⟩] := by
  norm_num [generateFromMealsItems, buildIngredientMap, mealStep, addContribution,
    servingsMultiplier, aggKey, pyRound2, roundHalfEven, List.filter, List.foldl]

/-! ## Recipe generation: mapping the model's ingredient entries
(`generate_recipe_from_meal`, `ai_service.py` lines 301-329) -/

/-- One parsed ingredient entry of the model's recipe reply; optional fields
model `dict.get` with its default (`is_user_provided` defaults to `True`,
`is_optional` to `False`, `category` to `"other"`). -/
structure ReplyRecipeIngredient where
  ingredient_name : String
  quantity : ℚ
  unit : UnitOfMeasurement
  category : Option IngredientCategory
  notes : Option String
  is_optional : Option Bool
  is_user_provided : Option Bool
deriving DecidableEq, Repr

/-- The `GeneratedRecipeIngredient` schema (`app/schemas/ai.py`). -/
structure GeneratedRecipeIngredient where
  ingredient_id : Option Nat
  ingredient_name : String
  quantity : ℚ
  unit : UnitOfMeasurement
  category : IngredientCategory
  notes : Option String
  is_optional : Bool
  is_new : Bool
  is_user_provided : Bool
deriving DecidableEq, Repr

/-- Lines 301-329: each reply entry is matched against the catalog and turned
into a `GeneratedRecipeIngredient`; `is_user_provided` is read straight from
the reply (`ing_data.get("is_user_provided", True)`) — the caller-supplied
ingredient list does not appear in this computation at all. -/
def mapReplyRecipeIngredients (reply : List ReplyRecipeIngredient)
    (catalog : List Ingredient) : List GeneratedRecipeIngredient :=
  reply.map fun ing =>
    let category := ing.category.getD IngredientCategory.other
    let m := matchIngredientToHousehold ing.ingredient_name catalog (some category)
    { ingredient_id := m.1
      ingredient_name := ing.ingredient_name
      quantity := ing.quantity
      unit := ing.unit
      category := category
      notes := ing.notes
      is_optional := ing.is_optional.getD false
      is_new := m.1.isNone
      is_user_provided := ing.is_user_provided.getD true }

/-- C5 (amended): `is_user_provided` on every returned recipe ingredient is
copied verbatim from the model reply's `is_user_provided` field (defaulting
to true when absent); the service never recomputes it from the
caller-supplied ingredient list. -/
theorem c5_user_supplied_flag (reply : List ReplyRecipeIngredient)
    (catalog : List Ingredient) :
    (mapReplyRecipeIngredients reply catalog).map (fun g => g.is_user_provided) =
      reply.map fun ing => ing.is_user_provided.getD true := by
  unfold mapReplyRecipeIngredients
  rw [List.map_map]
  rfl

/-- C5 counterexample: the model tags "salt" with `is_user_provided = true`;
the caller-supplied list is `["chicken"]`, which does not contain "salt"
case-insensitively, yet the output flag is true — refuting the claimed
"true iff the name occurs in the caller's list". -/
theorem c5_user_supplied_counterexample :
    (mapReplyRecipeIngredients
        [⟨"salt", 1, UnitOfMeasurement.teaspoon, none, none, none, some true⟩] []).map
      (fun g => g.is_user_provided) = [true] ∧
    (["chicken"].map pyLower).contains (pyLower "salt") = false := by
  exact ⟨rfl, by decide⟩

/-! ## Meal-plan generation (`generate_meal_plan_from_ingredients`,
`ai_service.py` lines 346-552) -/

/-- The domain error kinds raised by the service
(`app/core/exception.py`): `AuthorizationException`, `BadRequestException`,
`InternalServerException`. -/
inductive AppError where
  | authorization (msg : String)
  | badRequest (msg : String)
  | internal (msg : String)
deriving DecidableEq, Repr

/-- One parsed entry of the model's `meal_plan` reply. Dates are modelled as
integers (days since an epoch). -/
structure MealPlanReplyEntry where
  day : ℤ
  meal_type : String
  meal_name : String
  description : Option String
  ingredients_used : List String
  additional_ingredients_needed : List String
  estimated_prep_time : Option ℤ
  estimated_calories : Option ℤ
deriving DecidableEq, Repr

/-- The `GeneratedMealSuggestion` schema (`app/schemas/ai.py`);
`meal_type` is kept as the raw string. -/
structure GeneratedMealSuggestion where
  day : ℤ
  meal_date : ℤ
  meal_type : String
  meal_name : String
  description : Option String
  ingredients_used : List String
  additional_ingredients_needed : List String
  estimated_prep_time_minutes : Option ℤ
  estimated_calories : Option ℤ
  matched_ingredient_ids : List Nat
  requires_shopping : Bool
deriving DecidableEq, Repr

/-- Lines 511-517: match every name of `ingredients_used` and keep the id when
Python `if matched_id:` is truthy — i.e. the id is neither `None` nor `0`. -/
def matchedIdsFor (names : List String) (catalog : List Ingredient) : List Nat :=
  names.foldl
    (fun acc n =>
      match (matchIngredientToHousehold n catalog none).1 with
      | some i => if i = 0 then acc else acc ++ [i]
      | none => acc)
    []

/-- Lines 503-540, one reply entry: the suggestion built from it.
`day` is taken from the reply unvalidated; `meal_date = start_date +
timedelta(days=day - 1)`; `requires_shopping = len(additional) > 0`. -/
def processMealEntry (startDate : ℤ) (catalog : List Ingredient)
    (e : MealPlanReplyEntry) : GeneratedMealSuggestion :=
  { day := e.day
    meal_date := startDate + (e.day - 1)
    meal_type := e.meal_type
    meal_name := e.meal_name
    description := e.description
    ingredients_used := e.ingredients_used
    additional_ingredients_needed := e.additional_ingredients_needed
    estimated_prep_time_minutes := e.estimated_prep_time
    estimated_calories := e.estimated_calories
    matched_ingredient_ids := matchedIdsFor e.ingredients_used catalog
    requires_shopping := !e.additional_ingredients_needed.isEmpty }

/-- An element of `_get_available_ingredients`' result. -/
structure AvailableIngredient where
  name : String
  ingredient_id : Nat
  quantity : ℚ
  unit : String
  category : String
deriving DecidableEq, Repr

/-- The `GenerateMealPlanResponse` schema fields set by the service. -/
structure MealPlanResponse where
  household_id : Nat
  start_date : ℤ
  end_date : ℤ
  total_days : ℤ
  meal_suggestions : List GeneratedMealSuggestion
  total_meals : Nat
  available_ingredients_count : Nat
  meals_with_all_ingredients : Nat
  meals_requiring_shopping : Nat
deriving DecidableEq, Repr

/-- The first line of the `BadRequestException` message raised when
"use available only" is set with no available ingredients (line 385;
the full bulleted guidance text is abbreviated here). -/
def noAvailableIngredientsMsg : String :=
  "No available ingredients found in your household inventory."

/-- Model of `generate_meal_plan_from_ingredients`. In the order of the
source: membership check; `_get_available_ingredients` (taken as the
parameter `available`); fail-fast `BadRequest` when that list is empty and
`use_available_only` is set; start-date defaulting to today; then the model
call, extraction and `meal_plan`-presence check (abstracted into the
`modelReply` parameter, a classified error or the parsed entry list).
The second component counts invocations of the external Gemini model. -/
def generateMealPlanFromIngredients (isMember : Bool)
    (available : List AvailableIngredient) (catalog : List Ingredient)
    (days : ℤ) (startDate : Option ℤ) (today : ℤ) (householdId : Nat)
    (useAvailableOnly : Bool)
    (modelReply : Except AppError (List MealPlanReplyEntry)) :
    Except AppError MealPlanResponse × Nat :=
  if !isMember then
    (Except.error (AppError.authorization "You must be a member of the household"), 0)
  else if available.isEmpty && useAvailableOnly then
    (Except.error (AppError.badRequest noAvailableIngredientsMsg), 0)
  else
    let start := startDate.getD today
    match modelReply with
    | Except.error e => (Except.error e, 1)
    | Except.ok entries =>
      let suggestions := entries.map (processMealEntry start catalog)
      (Except.ok
        { household_id := householdId
          start_date := start
          end_date := start + (days - 1)
          total_days := days
          meal_suggestions := suggestions
          total_meals := suggestions.length
          available_ingredients_count := available.length
          meals_with_all_ingredients :=
            (entries.filter fun e => e.additional_ingredients_needed.isEmpty).length
          meals_requiring_shopping :=
            (entries.filter fun e => !e.additional_ingredients_needed.isEmpty).length },
        1)

/-- C6: with the "use available only" flag set and an empty
available-ingredient set, meal-plan generation fails with `BadRequest` and
the external model is never invoked: for every possible model reply the
result is the same error and the model-call count is zero. -/
theorem c6_available_only_fail_fast (available : List AvailableIngredient)
    (catalog : List Ingredient) (days : ℤ) (startDate : Option ℤ) (today : ℤ)
    (householdId : Nat) (modelReply : Except AppError (List MealPlanReplyEntry))
    (hav : available = []) :
    generateMealPlanFromIngredients true available catalog days startDate today
        householdId true modelReply =
      (Except.error (AppError.badRequest noAvailableIngredientsMsg), 0) := by
  subst hav
  rfl

/-- C6 witness: a concrete call with a nonempty candidate reply still returns
the `BadRequest` and zero model invocations. -/
theorem c6_available_only_fail_fast_witness :
    generateMealPlanFromIngredients true [] [] 7 none 0 1 true
        (Except.ok [⟨1, "dinner", "Omelette", none, [], [], none, none⟩]) =
      (Except.error (AppError.badRequest noAvailableIngredientsMsg), 0) :=
  c6_available_only_fail_fast [] [] 7 none 0 1
    (Except.ok [⟨1, "dinner", "Omelette", none, [], [], none, none⟩]) rfl

/-- C8 (amended): every entry of a successful meal-plan generation has
`meal_date = start_date + (day - 1)` days, where `day` is the value copied
unvalidated from the model reply (the `day` values are NOT validated to form
the contiguous range `1..days`). -/
theorem c8_meal_dates (isMember : Bool) (available : List AvailableIngredient)
    (catalog : List Ingredient) (days : ℤ) (startDate : Option ℤ) (today : ℤ)
    (householdId : Nat) (useAvailableOnly : Bool)
    (modelReply : Except AppError (List MealPlanReplyEntry))
    (resp : MealPlanResponse)
    (hok : (generateMealPlanFromIngredients isMember available catalog days
        startDate today householdId useAvailableOnly modelReply).1 =
      Except.ok resp) :
    ∀ s ∈ resp.meal_suggestions, s.meal_date = resp.start_date + (s.day - 1) := by
  unfold generateMealPlanFromIngredients at hok
  by_cases hm : !isMember
  · rw [if_pos hm] at hok
    cases hok
  · rw [if_neg hm] at hok
    by_cases hav : available.isEmpty && useAvailableOnly
    · rw [if_pos hav] at hok
      cases hok
    · rw [if_neg hav] at hok
      cases modelReply with
      | error e => cases hok
      | ok entries =>
        simp only [Except.ok.injEq] at hok
        subst hok
        intro s hs
        obtain ⟨e, _, rfl⟩ := List.mem_map.mp hs
        rfl

/-- C8 witness: a well-formed one-day request whose reply has `day = 1`; the
single returned suggestion's date is the start date plus `day - 1`. -/
theorem c8_meal_dates_witness :
    (processMealEntry 100 [] ⟨1, "dinner", "Omelette", none, [], [], none, none⟩).meal_date =
      (100 : ℤ) +
        ((processMealEntry 100 [] ⟨1, "dinner", "Omelette", none, [], [], none, none⟩).day - 1) :=
  c8_meal_dates true [⟨"egg", 1, 1, "piece", "other"⟩] [] 1 (some 100) 0 1 false
    (Except.ok [⟨1, "dinner", "Omelette", none, [], [], none, none⟩]) _ rfl
    (processMealEntry 100 [] ⟨1, "dinner", "Omelette", none, [], [], none, none⟩)
    (List.mem_singleton.mpr rfl)

/-- C8 counterexample: a reply with a single entry `day = 3` on a one-day
request succeeds, and the returned day values `[3]` are not the contiguous
range `1..1` — the code never validates the reply's `day` values. -/
theorem c8_day_range_counterexample :
    ((generateMealPlanFromIngredients true [⟨"egg", 1, 1, "piece", "other"⟩] [] 1
          (some 0) 0 1 false
          (Except.ok [⟨3, "dinner", "Omelette", none, [], [], none, none⟩])).1.map
        fun r => r.meal_suggestions.map fun s => s.day) = Except.ok [(3 : ℤ)] ∧
      [(3 : ℤ)] ≠ [1] := by
  exact ⟨rfl, by decide⟩

/-- C10: with every catalog id nonzero (database ids are positive),
`matched_ingredient_ids` is exactly the list of ids obtained by matching each
name of `ingredients_used` in order, unmatched names silently omitted — hence
no absent placeholder ever appears and the length is at most the number of
names. -/
theorem c10_matched_ids (names : List String) (catalog : List Ingredient)
    (hpos : ∀ ing ∈ catalog, ing.id ≠ 0) :
    matchedIdsFor names catalog =
      names.filterMap (fun n => (matchIngredientToHousehold n catalog none).1) ∧
    (matchedIdsFor names catalog).length ≤ names.length := by
  have hgen : ∀ (ns : List String) (acc : List Nat),
      ns.foldl
        (fun acc n =>
          match (matchIngredientToHousehold n catalog none).1 with
          | some i => if i = 0 then acc else acc ++ [i]
          | none => acc)
        acc =
      acc ++ ns.filterMap (fun n => (matchIngredientToHousehold n catalog none).1) := by
    intro ns
    induction ns with
    | nil => intro acc; simp
    | cons n ns ih =>
      intro acc
      rw [List.foldl_cons]
      cases hf : (matchIngredientToHousehold n catalog none).1 with
      | none =>
        rw [List.filterMap_cons]
        simp only [hf]
        exact ih acc
      | some i =>
        have hne : i ≠ 0 := by
          obtain ⟨ing, hmem, hid⟩ :=
            matchIngredient_id_mem sequenceMatcherRatio n catalog none i hf
          exact hid ▸ hpos ing hmem
        rw [List.filterMap_cons]
        simp only [hf, if_neg hne]
        rw [ih (acc ++ [i])]
        simp
  have h1 : matchedIdsFor names catalog =
      names.filterMap (fun n => (matchIngredientToHousehold n catalog none).1) := by
    unfold matchedIdsFor
    rw [hgen names []]
    simp
  exact ⟨h1, by rw [h1]; exact List.length_filterMap_le _ _⟩

/-- C10 witness: catalog `[egg (id 1)]`, names `["egg", "zzz"]`: the matched
list is the in-order filter-map of the matcher over the names. -/
theorem c10_matched_ids_witness :
    matchedIdsFor ["egg", "zzz"] [⟨1, "egg", none⟩] =
      (["egg", "zzz"].filterMap
        fun n => (matchIngredientToHousehold n [⟨1, "egg", none⟩] none).1) ∧
    (matchedIdsFor ["egg", "zzz"] [⟨1, "egg", none⟩]).length ≤ 2 :=
  c10_matched_ids ["egg", "zzz"] [⟨1, "egg", none⟩] (by decide)

/-! ## JSON values and `json.loads`
(model of the Python standard library parser, needed by the extractor).
Numeric values are exact rationals where Python would produce the nearest
float; `NaN` / `Infinity` / `-Infinity` (accepted by `json.loads`) get their
own constructors. Object keys follow dict semantics: a duplicate key
overwrites the earlier value in place. -/

inductive Json where
  | null
  | bool (b : Bool)
  | num (q : ℚ)
  | nanValue
  | infValue
  | negInfValue
  | str (s : String)
  | arr (xs : List Json)
  | obj (fields : List (String × Json))

/-- JSON whitespace (`json.decoder`: space, tab, newline, carriage return). -/
def isJsonWs (c : Char) : Bool :=
  c = ' ' || c = '\t' || c = '\n' || c = '\r'

/-- Hexadecimal digit value, for `\u` escapes. -/
def hexVal (c : Char) : Option Nat :=
  if '0' ≤ c ∧ c ≤ '9' then some (c.toNat - 48)
  else if 'a' ≤ c ∧ c ≤ 'f' then some (c.toNat - 87)
  else if 'A' ≤ c ∧ c ≤ 'F' then some (c.toNat - 55)
  else none

/-- Single-character JSON string escapes. -/
def escChar (e : Char) : Option Char :=
  if e = '"' then some '"'
  else if e = '\\' then some '\\'
  else if e = '/' then some '/'
  else if e = 'b' then some (Char.ofNat 8)
  else if e = 'f' then some (Char.ofNat 12)
  else if e = 'n' then some '\n'
  else if e = 'r' then some '\r'
  else if e = 't' then some '\t'
  else none

/-- Parse a JSON string body after the opening quote: returns the decoded
characters and the remainder after the closing quote. Unescaped control
characters are rejected (strict mode); a `\u` escape decodes its code point
(lone surrogates, which Python would keep, fall back to `Char.ofNat`'s
replacement). -/
def parseStringBody : List Char → Option (List Char × List Char)
  | [] => none
  | c :: rest =>
    if c = '"' then some ([], rest)
    else if c = '\\' then
      match rest with
      | [] => none
      | e :: rest2 =>
        if e = 'u' then
          match rest2 with
          | h1 :: h2 :: h3 :: h4 :: rest3 =>
            match hexVal h1, hexVal h2, hexVal h3, hexVal h4 with
            | some a, some b, some c2, some d =>
              match parseStringBody rest3 with
              | some (s, rem) =>
                some (Char.ofNat (((a * 16 + b) * 16 + c2) * 16 + d) :: s, rem)
              | none => none
            | _, _, _, _ => none
          | _ => none
        else
          match escChar e with
          | some ec =>
            match parseStringBody rest2 with
            | some (s, rem) => some (ec :: s, rem)
            | none => none
          | none => none
    else if c.toNat < 32 then none
    else
      match parseStringBody rest with
      | some (s, rem) => some (c :: s, rem)
      | none => none

/-- Decimal digits to a natural number. -/
def digitsToNat (ds : List Char) : Nat :=
  ds.foldl (fun n d => n * 10 + (d.toNat - 48)) 0

/-- Parse a JSON number per the grammar `-? int frac? exp?` (leading zeros
rejected); the value is assembled exactly with a single `mkRat`. -/
def parseNumber (cs : List Char) : Option (ℚ × List Char) :=
  let signed := match cs with
    | '-' :: rest => (true, rest)
    | _ => (false, cs)
  let ip := signed.2.span fun c => c.isDigit
  match ip.1 with
  | [] => none
  | d0 :: drest =>
    if d0 = '0' ∧ drest ≠ [] then none
    else
      let fp : Option (List Char × List Char) := match ip.2 with
        | '.' :: rest =>
          let q := rest.span fun c => c.isDigit
          if q.1 = [] then none else some q
        | other => some ([], other)
      match fp with
      | none => none
      | some (fs, cs2) =>
        let ep : Option (ℤ × List Char) := match cs2 with
          | c :: rest =>
            if c = 'e' ∨ c = 'E' then
              let se : (Bool × List Char) := match rest with
                | '+' :: r => (false, r)
                | '-' :: r => (true, r)
                | r => (false, r)
              let q := se.2.span fun c => c.isDigit
              if q.1 = [] then none
              else some (if se.1 then -(digitsToNat q.1 : ℤ) else (digitsToNat q.1 : ℤ), q.2)
            else some (0, c :: rest)
          | [] => some (0, [])
        match ep with
        | none => none
        | some (ex, cs3) =>
          let mantissa : ℤ := (digitsToNat (ip.1 ++ fs) : ℤ)
          let mantissa := if signed.1 then -mantissa else mantissa
          let v : ℚ :=
            if 0 ≤ ex then mkRat (mantissa * (10 : ℤ) ^ ex.toNat) (10 ^ fs.length)
            else mkRat mantissa (10 ^ fs.length * 10 ^ (-ex).toNat)
          some (v, cs3)

/-- Python dict insertion: an existing key is overwritten in place, a new key
is appended. -/
def dictInsert (fields : List (String × Json)) (k : String) (v : Json) :
    List (String × Json) :=
  if fields.any (fun kv => kv.1 = k) then
    fields.map fun kv => if kv.1 = k then (kv.1, v) else kv
  else fields ++ [(k, v)]

mutual

/-- Parse one JSON value (fuelled; the fuel only bounds the recursion and is
chosen large enough at the top level). -/
def parseValue : Nat → List Char → Option (Json × List Char)
  | 0, _ => none
  | fuel + 1, cs =>
    match cs.dropWhile isJsonWs with
    | [] => none
    | c :: rest =>
      if c = 'n' then
        if rest.take 3 = ['u', 'l', 'l'] then some (Json.null, rest.drop 3) else none
      else if c = 't' then
        if rest.take 3 = ['r', 'u', 'e'] then some (Json.bool true, rest.drop 3) else none
      else if c = 'f' then
        if rest.take 4 = ['a', 'l', 's', 'e'] then some (Json.bool false, rest.drop 4)
        else none
      else if c = 'N' then
        if rest.take 2 = ['a', 'N'] then some (Json.nanValue, rest.drop 2) else none
      else if c = 'I' then
        if rest.take 7 = ['n', 'f', 'i', 'n', 'i', 't', 'y'] then
          some (Json.infValue, rest.drop 7)
        else none
      else if c = '-' ∧ rest.take 8 = ['I', 'n', 'f', 'i', 'n', 'i', 't', 'y'] then
        some (Json.negInfValue, rest.drop 8)
      else if c = '"' then
        match parseStringBody rest with
        | some (s, rem) => some (Json.str (String.mk s), rem)
        | none => none
      else if c = '[' then
        match rest.dropWhile isJsonWs with
        | ']' :: rem => some (Json.arr [], rem)
        | _ => parseItems fuel rest []
      else if c = '\x7b' then
        match rest.dropWhile isJsonWs with
        | '\x7d' :: rem => some (Json.obj [], rem)
        | _ => parseMembers fuel rest []
      else
        match parseNumber (c :: rest) with
        | some (q, rem) => some (Json.num q, rem)
        | none => none

/-- Parse the comma-separated items of a (nonempty) array. -/
def parseItems : Nat → List Char → List Json → Option (Json × List Char)
  | 0, _, _ => none
  | fuel + 1, cs, acc =>
    match parseValue fuel cs with
    | none => none
    | some (v, rem) =>
      match rem.dropWhile isJsonWs with
      | ',' :: rem2 => parseItems fuel rem2 (acc ++ [v])
      | ']' :: rem2 => some (Json.arr (acc ++ [v]), rem2)
      | _ => none

/-- Parse the members of a (nonempty) object. -/
def parseMembers : Nat → List Char → List (String × Json) →
    Option (Json × List Char)
  | 0, _, _ => none
  | fuel + 1, cs, acc =>
    match cs.dropWhile isJsonWs with
    | '"' :: rest =>
      match parseStringBody rest with
      | none => none
      | some (k, rem) =>
        match rem.dropWhile isJsonWs with
        | ':' :: rem2 =>
          match parseValue fuel rem2 with
          | none => none
          | some (v, rem3) =>
            match rem3.dropWhile isJsonWs with
            | ',' :: rem4 => parseMembers fuel rem4 (dictInsert acc (String.mk k) v)
            | '\x7d' :: rem4 => some (Json.obj (dictInsert acc (String.mk k) v), rem4)
            | _ => none
        | _ => none
    | _ => none

end

/-- Model of `json.loads`: parse one document and require only whitespace to
remain. -/
def jsonLoads (s : String) : Option Json :=
  match parseValue (2 * s.length + 2) s.data with
  | some (v, rem) => if rem.dropWhile isJsonWs = [] then some v else none
  | none => none

/-! ## Response extractor (`AIService._extract_json_from_response`,
`ai_service.py` lines 797-844) -/

/-- Python regex `\s` (ASCII range: space, tab, newline, carriage return,
form feed, vertical tab). -/
def pyWs (c : Char) : Bool :=
  c = ' ' || c = '\t' || c = '\n' || c = '\r' || c = '\x0c' || c = '\x0b'

/-- The lazy interior scan of the fence pattern `(\{.*?\})\s*` followed by
a closing triple backtick: advance through the text and stop at the first
closing brace whose remainder, after whitespace, starts with three backticks;
returns the consumed characters including that brace. -/
def fenceClose : List Char → List Char → Option (List Char)
  | _, [] => none
  | acc, c :: rest =>
    if c = '\x7d' && ("```".data.isPrefixOf (rest.dropWhile pyWs)) then
      some (acc.reverse ++ [c])
    else fenceClose (c :: acc) rest

/-- After the opening triple backtick: skip the optional `json` tag. -/
def fenceAfterTag (cs : List Char) : List Char :=
  if "json".data.isPrefixOf (cs.drop 3) then (cs.drop 3).drop 4 else cs.drop 3

/-- One anchored attempt of the code-fence pattern
`` ```(?:json)?\s*(\{.*?\})\s*``` `` (with DOTALL) at the head of `cs`; on
success returns the captured group. The optional `json` tag and the greedy
whitespace runs are deterministic here because their character sets are
disjoint from what must follow. -/
def fenceTryAt (cs : List Char) : Option (List Char) :=
  if "```".data.isPrefixOf cs then
    match (fenceAfterTag cs).dropWhile pyWs with
    | c :: r4 =>
      if c = '\x7b' then
        match fenceClose [] r4 with
        | some body => some ('\x7b' :: body)
        | none => none
      else none
    | [] => none
  else none

/-- `re.search` of the code-fence pattern: leftmost successful anchor wins. -/
def fenceSearch : List Char → Option (List Char)
  | [] => none
  | c :: rest =>
    match fenceTryAt (c :: rest) with
    | some cap => some cap
    | none => fenceSearch rest

/-- The remainder of the text after its first opening brace. -/
def restAfterFirstOpen : List Char → Option (List Char)
  | [] => none
  | c :: rest => if c = '\x7b' then some rest else restAfterFirstOpen rest

/-- The prefix of the text up to and including its last closing brace. -/
def takeToLastClose : List Char → Option (List Char)
  | [] => none
  | c :: rest =>
    match takeToLastClose rest with
    | some tl => some (c :: tl)
    | none => if c = '\x7d' then some [c] else none

/-- `re.search(r"\{.*\}", text, re.DOTALL)`: with the greedy `.*`, the match —
when one exists — runs from the first opening brace to the last closing brace
after it. -/
def greedyBraces (cs : List Char) : Option (List Char) :=
  match restAfterFirstOpen cs with
  | none => none
  | some rest =>
    match takeToLastClose rest with
    | some tl => some ('\x7b' :: tl)
    | none => none

/-- The fixed `BadRequestException` message of the extractor (lines
840-844). -/
def extractionFailureMsg : String :=
  "The AI service returned data in an unexpected format.\n\nThis is usually temporary. Please try your request again.\nIf the problem persists, try simplifying your request."

/-- The fenced-block pass (lines 821-828): search for the fence pattern and,
when it matches, parse the captured group. -/
def extractFenceAttempt (cs : List Char) : Option Json :=
  match fenceSearch cs with
  | some cap => jsonLoads (String.mk cap)
  | none => none

/-- The greedy brace pass (lines 830-839). -/
def extractGreedyAttempt (cs : List Char) : Option Json :=
  match greedyBraces cs with
  | some cap => jsonLoads (String.mk cap)
  | none => none

/-- Model of `_extract_json_from_response`: direct parse, then the fenced
block, then the greedy brace span; if all fail, `BadRequestException` with a
fixed template message (the raw reply is only logged, never included). -/
def extractJsonFromResponse (responseText : String) : Except AppError Json :=
  match jsonLoads responseText with
  | some j => Except.ok j
  | none =>
    match extractFenceAttempt responseText.data with
    | some j => Except.ok j
    | none =>
      match extractGreedyAttempt responseText.data with
      | some j => Except.ok j
      | none => Except.error (AppError.badRequest extractionFailureMsg)

/-- A text has no brace-delimited substring: it cannot be split around an
opening brace followed, anywhere later, by a closing brace. -/
def PairFree (cs : List Char) : Prop :=
  ¬∃ pre mid post : List Char, cs = pre ++ '\x7b' :: (mid ++ '\x7d' :: post)

lemma pairFree_of_noOpen (cs : List Char) (h : cs.contains '\x7b' = false) :
    PairFree cs := by
  rintro ⟨pre, mid, post, rfl⟩
  have hmem : ('\x7b' : Char) ∈ pre ++ '\x7b' :: (mid ++ '\x7d' :: post) :=
    List.mem_append_right _ (List.mem_cons_self _ _)
  have hcon : (pre ++ '\x7b' :: (mid ++ '\x7d' :: post)).contains '\x7b' = true :=
    List.elem_eq_true_of_mem hmem
  rw [h] at hcon
  cases hcon

lemma fenceClose_pair (out : List Char) :
    ∀ (l acc : List Char), fenceClose acc l = some out →
      ∃ mid post, l = mid ++ '\x7d' :: post := by
  intro l
  induction l with
  | nil => intro acc h; cases h
  | cons c rest ih =>
    intro acc h
    unfold fenceClose at h
    by_cases hc : (c = '\x7d' && ("```".data.isPrefixOf (rest.dropWhile pyWs))) = true
    · rw [if_pos hc] at h
      have hcc : c = '\x7d' := by
        rw [Bool.and_eq_true] at hc
        simpa using hc.1
      exact ⟨[], rest, by rw [hcc]; rfl⟩
    · rw [if_neg hc] at h
      obtain ⟨mid, post, hrest⟩ := ih (c :: acc) h
      exact ⟨c :: mid, post, by rw [hrest]; rfl⟩

lemma fenceAfterTag_suffix (cs : List Char) : (fenceAfterTag cs).IsSuffix cs := by
  unfold fenceAfterTag
  by_cases hj : ("json".data.isPrefixOf (cs.drop 3)) = true
  · rw [if_pos hj]
    exact ((cs.drop 3).drop_suffix 4).trans (cs.drop_suffix 3)
  · rw [if_neg hj]
    exact cs.drop_suffix 3

lemma fenceTryAt_pair (cs out : List Char) (h : fenceTryAt cs = some out) :
    ∃ pre mid post, cs = pre ++ '\x7b' :: (mid ++ '\x7d' :: post) := by
  unfold fenceTryAt at h
  by_cases hp : ("```".data.isPrefixOf cs) = true
  · rw [if_pos hp] at h
    cases hd : (fenceAfterTag cs).dropWhile pyWs with
    | nil => rw [hd] at h; cases h
    | cons c r4 =>
      rw [hd] at h
      have h2 : (if c = '\x7b' then
          match fenceClose [] r4 with
          | some body => some ('\x7b' :: body)
          | none => none
        else none) = some out := h
      by_cases hc : c = '\x7b'
      · rw [if_pos hc] at h2
        cases hf : fenceClose [] r4 with
        | none => rw [hf] at h2; cases h2
        | some body =>
          obtain ⟨mid, post, hr4⟩ := fenceClose_pair body r4 [] hf
          have hsuf : (c :: r4).IsSuffix cs := by
            have h1 : ((fenceAfterTag cs).dropWhile pyWs).IsSuffix (fenceAfterTag cs) :=
              (fenceAfterTag cs).dropWhile_suffix pyWs
            rw [hd] at h1
            exact h1.trans (fenceAfterTag_suffix cs)
          obtain ⟨pre, hpre⟩ := hsuf
          refine ⟨pre, mid, post, ?_⟩
          rw [← hpre, hc, hr4]
      · rw [if_neg hc] at h2
        cases h2
  · rw [if_neg hp] at h
    cases h

lemma fenceSearch_pair (out : List Char) :
    ∀ cs, fenceSearch cs = some out →
      ∃ pre mid post, cs = pre ++ '\x7b' :: (mid ++ '\x7d' :: post) := by
  intro cs
  induction cs with
  | nil => intro h; cases h
  | cons c rest ih =>
    intro h
    unfold fenceSearch at h
    cases ht : fenceTryAt (c :: rest) with
    | some cap =>
      exact fenceTryAt_pair _ _ ht
    | none =>
      rw [ht] at h
      obtain ⟨pre, mid, post, hr⟩ := ih h
      exact ⟨c :: pre, mid, post, by rw [hr]; rfl⟩

lemma restAfterFirstOpen_decomp (rest : List Char) :
    ∀ cs, restAfterFirstOpen cs = some rest → ∃ pre, cs = pre ++ '\x7b' :: rest := by
  intro cs
  induction cs with
  | nil => intro h; cases h
  | cons c r ih =>
    intro h
    unfold restAfterFirstOpen at h
    by_cases hc : c = '\x7b'
    · rw [if_pos hc] at h
      injection h with h1
      exact ⟨[], by rw [hc, h1]; rfl⟩
    · rw [if_neg hc] at h
      obtain ⟨pre, hr⟩ := ih h
      exact ⟨c :: pre, by rw [hr]; rfl⟩

lemma takeToLastClose_decomp :
    ∀ (l tl : List Char), takeToLastClose l = some tl →
      ∃ mid post, l = mid ++ '\x7d' :: post := by
  intro l
  induction l with
  | nil => intro tl h; cases h
  | cons c r ih =>
    intro tl h
    unfold takeToLastClose at h
    cases ht : takeToLastClose r with
    | some tl2 =>
      obtain ⟨mid, post, hr⟩ := ih tl2 ht
      exact ⟨c :: mid, post, by rw [hr]; rfl⟩
    | none =>
      rw [ht] at h
      by_cases hc : c = '\x7d'
      · exact ⟨[], r, by rw [hc]; rfl⟩
      · rw [if_neg hc] at h
        cases h

lemma greedyBraces_pair (cs out : List Char) (h : greedyBraces cs = some out) :
    ∃ pre mid post, cs = pre ++ '\x7b' :: (mid ++ '\x7d' :: post) := by
  unfold greedyBraces at h
  cases hs : restAfterFirstOpen cs with
  | none => rw [hs] at h; cases h
  | some rest =>
    rw [hs] at h
    have h2 : (match takeToLastClose rest with
      | some tl => some ('\x7b' :: tl)
      | none => none) = some out := h
    cases ht : takeToLastClose rest with
    | none => rw [ht] at h2; cases h2
    | some tl =>
      obtain ⟨pre, hcs⟩ := restAfterFirstOpen_decomp rest cs hs
      obtain ⟨mid, post, hrest⟩ := takeToLastClose_decomp rest tl ht
      exact ⟨pre, mid, post, by rw [hcs, hrest]⟩

lemma extract_pairFree_error (t : String) (hpf : PairFree t.data)
    (hjson : jsonLoads t = none) :
    extractJsonFromResponse t = Except.error (AppError.badRequest extractionFailureMsg) := by
  have hfence : extractFenceAttempt t.data = none := by
    unfold extractFenceAttempt
    cases hf : fenceSearch t.data with
    | none => rfl
    | some cap => exact absurd (fenceSearch_pair cap t.data hf) hpf
  have hgreedy : extractGreedyAttempt t.data = none := by
    unfold extractGreedyAttempt
    cases hg : greedyBraces t.data with
    | none => rfl
    | some cap => exact absurd (greedyBraces_pair t.data cap hg) hpf
  unfold extractJsonFromResponse
  rw [hjson, hfence, hgreedy]

/-- C7 (amended): extraction of the prose-plus-fence reply returns the object
`{"ingredients": []}`; and every reply text with no brace-delimited substring
that also fails direct JSON parsing makes extraction fail with `BadRequest`
carrying the fixed template message `extractionFailureMsg` — a constant
independent of the reply, so the raw reply is never echoed back. (The
original claim is refuted for brace-free texts that are themselves valid
JSON, such as `"null"` — see the counterexample.) -/
theorem c7_extractor_roundtrip :
    extractJsonFromResponse "Here you go:\n```json\n\x7b\"ingredients\": []\x7d\n```" =
      Except.ok (Json.obj [("ingredients", Json.arr [])]) ∧
    ∀ t : String, PairFree t.data → jsonLoads t = none →
      extractJsonFromResponse t =
        Except.error (AppError.badRequest extractionFailureMsg) :=
  ⟨rfl, fun t hpf hj => extract_pairFree_error t hpf hj⟩

/-- C7 witness: a brace-free, non-JSON reply hits the `BadRequest` with the
fixed message. -/
theorem c7_extractor_roundtrip_witness :
    extractJsonFromResponse "No structured reply." =
      Except.error (AppError.badRequest extractionFailureMsg) :=
  c7_extractor_roundtrip.2 "No structured reply."
    (pairFree_of_noOpen _ (by decide)) rfl

/-- C7 counterexample: the reply `"null"` contains no brace-delimited
substring (no brace at all), yet extraction succeeds via the direct
`json.loads` pass instead of failing with `BadRequest` — refuting the claim
as stated. -/
theorem c7_direct_parse_counterexample :
    extractJsonFromResponse "null" = Except.ok Json.null ∧
    "null".data.contains '\x7b' = false ∧
    "null".data.contains '\x7d' = false :=
  ⟨rfl, by decide, by decide⟩

/-! ## Ingredient generation and error classification
(`generate_ingredients_from_meal`, `_call_gemini_with_retry`,
`app/core/middleware.py`) -/

/-- Plain Python data-level exceptions that can escape the reply-processing
loops (none of them a `CustomException`). -/
inductive PyDataError where
  | valueError (msg : String)
  | keyError (msg : String)
  | typeError (msg : String)
  | attributeError (msg : String)
  | overflowError (msg : String)
deriving DecidableEq, Repr

/-- Python `str(e)` on a data-level exception: `str(KeyError(k))` is the
`repr` of the key (in quotes); the others yield their message. -/
def PyDataError.pyStr : PyDataError → String
  | PyDataError.valueError m => m
  | PyDataError.keyError k => "\x27" ++ k ++ "\x27"
  | PyDataError.typeError m => m
  | PyDataError.attributeError m => m
  | PyDataError.overflowError m => m

/-- Any exception the service layer can raise: a domain `CustomException`
(`AppError`) or a plain Python data error. -/
inductive PyException where
  | appError (e : AppError)
  | dataError (d : PyDataError)
deriving DecidableEq, Repr

def AppError.message : AppError → String
  | AppError.authorization m => m
  | AppError.badRequest m => m
  | AppError.internal m => m

/-- HTTP status of each `CustomException` subclass
(`app/core/exception.py`). -/
def AppError.statusCode : AppError → ℤ
  | AppError.authorization _ => 403
  | AppError.badRequest _ => 400
  | AppError.internal _ => 500

/-- Python `sub in s` on strings: `sub` occurs as a contiguous substring. -/
def hasSubstring (pat : List Char) : List Char → Bool
  | [] => pat.isEmpty
  | c :: rest => pat.isPrefixOf (c :: rest) || hasSubstring pat rest

/-- Error-text classification of `_call_gemini_with_retry` (lines 779-795):
case-insensitive substring inspection of the stringified exception; the
fallback message embeds the original text. -/
def classifyGeminiError (err : String) : AppError :=
  let e := (pyLower err).data
  if hasSubstring "api".data e ∧ hasSubstring "key".data e then
    AppError.internal "AI service configuration error. Please contact administrator."
  else if hasSubstring "rate".data e ∨ hasSubstring "limit".data e then
    AppError.internal "AI service is busy. Please try again in a few moments."
  else if hasSubstring "timeout".data e then
    AppError.badRequest "AI request timed out. Please try with a simpler request."
  else AppError.internal ("AI service error: " ++ err)

/-- Model of `_call_gemini_with_retry` (lines 747-795): the external call
either yields the response text or fails with a stringified exception. An
empty (or missing) response raises `InternalServerException("AI service
returned empty response")` inside the `try`, which the `except` catches and
reclassifies from its string form `"500: AI service returned empty
response"`. -/
def callGeminiWithRetry (outcome : Except String String) : Except AppError String :=
  match outcome with
  | Except.ok text =>
    if text = "" then
      Except.error (classifyGeminiError "500: AI service returned empty response")
    else Except.ok text
  | Except.error estr => Except.error (classifyGeminiError estr)

/-- `x["k"]` on a parsed JSON value: dicts index by key (`KeyError` when
missing); lists and strings reject string indices (`TypeError`); other
values are not subscriptable (`TypeError`). -/
def pyGetItem (j : Json) (k : String) : Except PyDataError Json :=
  match j with
  | Json.obj fields =>
    match fields.find? (fun kv => kv.1 = k) with
    | some kv => Except.ok kv.2
    | none => Except.error (PyDataError.keyError k)
  | Json.arr _ =>
    Except.error (PyDataError.typeError "list indices must be integers or slices, not str")
  | Json.str _ => Except.error (PyDataError.typeError "string indices must be integers")
  | _ => Except.error (PyDataError.typeError "object is not subscriptable")

/-- `x.get(k, default)`: `AttributeError` when `x` is not a dict. -/
def pyDictGet (j : Json) (k : String) (dflt : Json) : Except PyDataError Json :=
  match j with
  | Json.obj fields =>
    match fields.find? (fun kv => kv.1 = k) with
    | some kv => Except.ok kv.2
    | none => Except.ok dflt
  | _ => Except.error (PyDataError.attributeError "object has no attribute get")

/-- `"k" in x`: dict key membership; list membership by equality; substring
test on strings; `TypeError` on non-iterables. -/
def pyContains (j : Json) (k : String) : Except PyDataError Bool :=
  match j with
  | Json.obj fields => Except.ok (fields.any fun kv => kv.1 = k)
  | Json.arr xs =>
    Except.ok (xs.any fun x =>
      match x with
      | Json.str s => s = k
      | _ => false)
  | Json.str s => Except.ok (hasSubstring k.data s.data)
  | _ => Except.error (PyDataError.typeError "argument of type is not iterable")

/-- `for x in v`: lists iterate their elements, dicts their keys, strings
their characters; other values raise `TypeError`. -/
def pyIterate (j : Json) : Except PyDataError (List Json) :=
  match j with
  | Json.arr xs => Except.ok xs
  | Json.obj fields => Except.ok (fields.map fun kv => Json.str kv.1)
  | Json.str s => Except.ok (s.data.map fun c => Json.str (String.mk [c]))
  | _ => Except.error (PyDataError.typeError "object is not iterable")

/-- A value on which `.lower()` is called must be a `str`
(`AttributeError` otherwise). -/
def pyAsStr (j : Json) : Except PyDataError String :=
  match j with
  | Json.str s => Except.ok s
  | _ => Except.error (PyDataError.attributeError "object has no attribute lower")

/-- A Python float value: finite (exact rational model), NaN or infinite. -/
inductive PyFloat where
  | fin (q : ℚ)
  | nanF
  | infF
  | negInfF
deriving DecidableEq, Repr

/-- `float(x)` on a parsed JSON value: numbers and booleans convert,
`NaN`/`Infinity` pass through, numeric strings are parsed (approximated by
the JSON number grammar plus `inf`/`nan` spellings, whitespace-trimmed),
anything else raises (`ValueError` for bad strings, `TypeError` for
non-numeric types). -/
def pyFloat (j : Json) : Except PyDataError PyFloat :=
  match j with
  | Json.num q => Except.ok (PyFloat.fin q)
  | Json.bool b => Except.ok (PyFloat.fin (if b then 1 else 0))
  | Json.nanValue => Except.ok PyFloat.nanF
  | Json.infValue => Except.ok PyFloat.infF
  | Json.negInfValue => Except.ok PyFloat.negInfF
  | Json.str s =>
    let t := (s.data.dropWhile isJsonWs).reverse.dropWhile isJsonWs |>.reverse
    let low := t.map Char.toLower
    if low = "inf".data ∨ low = "infinity".data ∨ low = "+inf".data ∨
        low = "+infinity".data then Except.ok PyFloat.infF
    else if low = "-inf".data ∨ low = "-infinity".data then Except.ok PyFloat.negInfF
    else if low = "nan".data ∨ low = "+nan".data ∨ low = "-nan".data then
      Except.ok PyFloat.nanF
    else
      match parseNumber t with
      | some (q, []) => Except.ok (PyFloat.fin q)
      | _ => Except.error (PyDataError.valueError "could not convert string to float")
  | _ =>
    Except.error (PyDataError.typeError "float() argument must be a string or a real number")

/-- `IngredientCategory(value)`: enum lookup by value
(`ValueError` when the value is not a member). -/
def coerceCategory (j : Json) : Except PyDataError IngredientCategory :=
  match j with
  | Json.str s =>
    if s = "produce" then Except.ok IngredientCategory.produce
    else if s = "meat" then Except.ok IngredientCategory.meat
    else if s = "seafood" then Except.ok IngredientCategory.seafood
    else if s = "dairy" then Except.ok IngredientCategory.dairy
    else if s = "bakery" then Except.ok IngredientCategory.bakery
    else if s = "pantry" then Except.ok IngredientCategory.pantry
    else if s = "spices" then Except.ok IngredientCategory.spices
    else if s = "beverages" then Except.ok IngredientCategory.beverages
    else if s = "frozen" then Except.ok IngredientCategory.frozen
    else if s = "snacks" then Except.ok IngredientCategory.snacks
    else if s = "other" then Except.ok IngredientCategory.other
    else Except.error (PyDataError.valueError (s ++ " is not a valid IngredientCategory"))
  | _ => Except.error (PyDataError.valueError "is not a valid IngredientCategory")

/-- `UnitOfMeasurement(value)`: enum lookup by value. -/
def coerceUnit (j : Json) : Except PyDataError UnitOfMeasurement :=
  match j with
  | Json.str s =>
    if s = "gram" then Except.ok UnitOfMeasurement.gram
    else if s = "kilogram" then Except.ok UnitOfMeasurement.kilogram
    else if s = "ounce" then Except.ok UnitOfMeasurement.ounce
    else if s = "pound" then Except.ok UnitOfMeasurement.pound
    else if s = "milliliter" then Except.ok UnitOfMeasurement.milliliter
    else if s = "liter" then Except.ok UnitOfMeasurement.liter
    else if s = "teaspoon" then Except.ok UnitOfMeasurement.teaspoon
    else if s = "tablespoon" then Except.ok UnitOfMeasurement.tablespoon
    else if s = "cup" then Except.ok UnitOfMeasurement.cup
    else if s = "pint" then Except.ok UnitOfMeasurement.pint
    else if s = "quart" then Except.ok UnitOfMeasurement.quart
    else if s = "gallon" then Except.ok UnitOfMeasurement.gallon
    else if s = "piece" then Except.ok UnitOfMeasurement.piece
    else if s = "slice" then Except.ok UnitOfMeasurement.slice
    else if s = "clove" then Except.ok UnitOfMeasurement.clove
    else if s = "package" then Except.ok UnitOfMeasurement.package
    else if s = "can" then Except.ok UnitOfMeasurement.can
    else if s = "bunch" then Except.ok UnitOfMeasurement.bunch
    else if s = "to_taste" then Except.ok UnitOfMeasurement.toTaste
    else if s = "as_needed" then Except.ok UnitOfMeasurement.asNeeded
    else Except.error (PyDataError.valueError (s ++ " is not a valid UnitOfMeasurement"))
  | _ => Except.error (PyDataError.valueError "is not a valid UnitOfMeasurement")

/-- The `GeneratedIngredient` schema (`app/schemas/ai.py`); `quantity` is a
Python float. -/
structure GeneratedIngredient where
  name : String
  quantity : PyFloat
  unit : UnitOfMeasurement
  category : IngredientCategory
  notes : Option String
  existing_ingredient_id : Option Nat
  is_new : Bool
  confidence_score : ℚ
deriving DecidableEq, Repr

/-- One iteration of the reply-processing loop of
`generate_ingredients_from_meal` (lines 142-167), in source evaluation order:
`ing_data["name"]` is fetched, then the category keyword argument is
evaluated (`get` plus enum coercion), then the matcher runs — whose first use
of the name is `.lower()`, an `AttributeError` for a non-string — then
`float(ing_data["quantity"])`, the unit coercion and the `notes` `get`
(a non-string notes value is dropped; pydantic-level validation is out of
scope). The return type shows no `CustomException` can originate here — only
plain data errors. -/
def processIngredientEntry (catalog : List Ingredient) (j : Json) :
    Except PyDataError GeneratedIngredient := do
  let nameJ ← pyGetItem j "name"
  let catJ ← pyDictGet j "category" (Json.str "other")
  let category ← coerceCategory catJ
  let name ← pyAsStr nameJ
  let m := matchIngredientToHousehold name catalog (some category)
  let qJ ← pyGetItem j "quantity"
  let quantity ← pyFloat qJ
  let uJ ← pyGetItem j "unit"
  let unit ← coerceUnit uJ
  let notesJ ← pyDictGet j "notes" Json.null
  let notes := match notesJ with
    | Json.str s => some s
    | _ => none
  Except.ok
    { name := name
      quantity := quantity
      unit := unit
      category := category
      notes := notes
      existing_ingredient_id := m.1
      is_new := m.1.isNone
      confidence_score := m.2 }

/-- The `BadRequestException` message for a reply without an `ingredients`
field (lines 129-135; the bulleted guidance text is abbreviated). -/
def ingredientsMissingMsg : String :=
  "The AI could not generate a valid ingredient list. Please try again with a more specific meal name or simpler requirements."

/-- Model of `generate_ingredients_from_meal` (lines 60-176): membership
check, model call (classified on failure), extraction, the `ingredients`
presence check, then the processing loop. Every failure is an explicit
`PyException`. -/
def generateIngredientsFromMeal (isMember : Bool) (catalog : List Ingredient)
    (gemini : Except String String) :
    Except PyException (List GeneratedIngredient) :=
  if !isMember then
    Except.error (PyException.appError
      (AppError.authorization "You must be a member of the household"))
  else
    match callGeminiWithRetry gemini with
    | Except.error a => Except.error (PyException.appError a)
    | Except.ok text =>
      match extractJsonFromResponse text with
      | Except.error a => Except.error (PyException.appError a)
      | Except.ok data =>
        match pyContains data "ingredients" with
        | Except.error d => Except.error (PyException.dataError d)
        | Except.ok false =>
          Except.error (PyException.appError (AppError.badRequest ingredientsMissingMsg))
        | Except.ok true =>
          match pyGetItem data "ingredients" with
          | Except.error d => Except.error (PyException.dataError d)
          | Except.ok ingsJ =>
            match pyIterate ingsJ with
            | Except.error d => Except.error (PyException.dataError d)
            | Except.ok entries =>
              match entries.mapM (processIngredientEntry catalog) with
              | Except.error d => Except.error (PyException.dataError d)
              | Except.ok gens => Except.ok gens

lemma classifyGeminiError_message_ne (s : String) :
    (classifyGeminiError s).message ≠ "" := by
  unfold classifyGeminiError
  dsimp only []
  split_ifs <;> simp only [AppError.message]
  · decide
  · decide
  · decide
  · intro h
    have hd := congrArg String.data h
    rw [String.data_append] at hd
    have h2 := List.append_eq_nil.mp hd
    exact absurd h2.1 (by decide)

lemma callGemini_error_message_ne (g : Except String String) (a : AppError)
    (h : callGeminiWithRetry g = Except.error a) : a.message ≠ "" := by
  unfold callGeminiWithRetry at h
  cases g with
  | ok text =>
    dsimp only [] at h
    by_cases ht : text = ""
    · rw [if_pos ht] at h
      injection h with h1
      rw [← h1]
      exact classifyGeminiError_message_ne _
    · rw [if_neg ht] at h
      cases h
  | error estr =>
    dsimp only [] at h
    injection h with h1
    rw [← h1]
    exact classifyGeminiError_message_ne _

lemma extract_error_shape (t : String) (a : AppError)
    (h : extractJsonFromResponse t = Except.error a) :
    a = AppError.badRequest extractionFailureMsg := by
  unfold extractJsonFromResponse at h
  cases h1 : jsonLoads t with
  | some j => rw [h1] at h; cases h
  | none =>
    rw [h1] at h
    cases h2 : extractFenceAttempt t.data with
    | some j => rw [h2] at h; cases h
    | none =>
      rw [h2] at h
      cases h3 : extractGreedyAttempt t.data with
      | some j => rw [h3] at h; cases h
      | none =>
        rw [h3] at h
        injection h with h4
        exact h4.symm

/-! ## What the HTTP caller receives
The three AI routes (`app/api/v1/ai.py`) run the service inside
`try: ... except CustomException: raise; except Exception as e:
raise InternalServerException("Failed to generate <op>: " + str(e))`, so a
plain data error is wrapped into a domain `InternalServerException` at the
route. `CustomException` subclasses `HTTPException`, so every domain error is
then intercepted by `@app.exception_handler(HTTPException)` in `app/main.py`
— FastAPI's handler layer sits inside the middleware stack, before
`ExceptionHandlingMiddleware` could see the exception — and serialized with
`category_map.get(status_code, "Error")`. -/

/-- The route-level wrapping of `app/api/v1/ai.py` (lines 52-57, 100-105,
144-149): a `CustomException` is re-raised unchanged; anything else becomes
`InternalServerException("Failed to generate <op>: " + str(e))`. -/
def routeWrapError (opName : String) : PyException → AppError
  | PyException.appError e => e
  | PyException.dataError d =>
    AppError.internal ("Failed to generate " ++ opName ++ ": " ++ d.pyStr)

/-- The category string attached by `main.py`'s `HTTPException` handler
(`category_map.get(exc.status_code, "Error")`, lines 78-86). -/
def categoryForStatus (status : ℤ) : String :=
  if status = 400 then "BadRequest"
  else if status = 401 then "Authentication"
  else if status = 403 then "Authorization"
  else if status = 404 then "NotFound"
  else if status = 409 then "ResourceConflict"
  else if status = 422 then "Validation"
  else "Error"

/-- The serialized error body the HTTP caller receives
(`main.py` lines 88-99). -/
structure HttpErrorBody where
  message : String
  status_code : ℤ
  category : String
deriving DecidableEq, Repr

/-- Model of `http_exception_handler` (`app/main.py` lines 71-99): message
from `exc.detail`, the exception's status code, and the category string
inferred from that status. -/
def httpExceptionHandler (e : AppError) : HttpErrorBody :=
  ⟨e.message, e.statusCode, categoryForStatus e.statusCode⟩

/-- The body is a classified failure: one of the three domain error kinds'
statuses with its matching machine-readable category string, and a nonempty
human-readable message. -/
def classifiedBody (b : HttpErrorBody) : Prop :=
  ((b.status_code = 403 ∧ b.category = "Authorization") ∨
    (b.status_code = 400 ∧ b.category = "BadRequest") ∨
    (b.status_code = 500 ∧ b.category = "Error")) ∧
  b.message ≠ ""

/-- The `/ai/generate-ingredients` endpoint: the service pipeline plus the
route-level wrapping. -/
def generateIngredientsEndpoint (isMember : Bool) (catalog : List Ingredient)
    (gemini : Except String String) : Except AppError (List GeneratedIngredient) :=
  (generateIngredientsFromMeal isMember catalog gemini).mapError
    (routeWrapError "ingredients")

/-- Lines 220-229 of `generate_recipe_from_meal`: validate the caller's
ingredient ids in order; `ingredientIds` pairs each requested id with the
household id of the fetched row (`none` = not found). An empty list skips
the loop (`if ingredient_ids:`). -/
def validateIngredientIds : List (Nat × Option Nat) → Nat → Option AppError
  | [], _ => none
  | (ingId, res) :: rest, householdId =>
    match res with
    | none =>
      some (AppError.badRequest
        ("Ingredient with ID " ++ toString ingId ++ " not found"))
    | some h =>
      if h ≠ householdId then
        some (AppError.badRequest
          ("Ingredient " ++ toString ingId ++ " doesn\x27t belong to this household"))
      else validateIngredientIds rest householdId

/-- A recipe-reply ingredient after the loop of lines 302-329, with raw
Python-float quantity; reply-provided booleans are kept when boolean
(pydantic validation of other shapes is out of scope). -/
structure RecipeIngredientResult where
  ingredient_id : Option Nat
  ingredient_name : String
  quantity : PyFloat
  unit : UnitOfMeasurement
  category : IngredientCategory
  notes : Option String
  is_optional : Option Bool
  is_new : Bool
  is_user_provided : Option Bool
deriving DecidableEq, Repr

/-- One iteration of the recipe reply loop (lines 302-329) in source
evaluation order: `ing_data["ingredient_name"]`, the `is_user_provided`
`get`, the category keyword argument (`get` plus enum coercion), the matcher
(whose first use of the name is `.lower()`), then `float(quantity)`, the
unit coercion, the second category coercion and the `notes`/`is_optional`
`get`s. -/
def processRecipeIngredientEntry (catalog : List Ingredient) (j : Json) :
    Except PyDataError RecipeIngredientResult := do
  let nameJ ← pyGetItem j "ingredient_name"
  let userJ ← pyDictGet j "is_user_provided" (Json.bool true)
  let catJ ← pyDictGet j "category" (Json.str "other")
  let category ← coerceCategory catJ
  let name ← pyAsStr nameJ
  let m := matchIngredientToHousehold name catalog (some category)
  let qJ ← pyGetItem j "quantity"
  let quantity ← pyFloat qJ
  let uJ ← pyGetItem j "unit"
  let unit ← coerceUnit uJ
  let catJ2 ← pyDictGet j "category" (Json.str "other")
  let category2 ← coerceCategory catJ2
  let notesJ ← pyDictGet j "notes" Json.null
  let optJ ← pyDictGet j "is_optional" (Json.bool false)
  Except.ok
    { ingredient_id := m.1
      ingredient_name := name
      quantity := quantity
      unit := unit
      category := category2
      notes := match notesJ with | Json.str s => some s | _ => none
      is_optional := match optJ with | Json.bool b => some b | _ => none
      is_new := m.1.isNone
      is_user_provided := match userJ with | Json.bool b => some b | _ => none }

/-- The recipe-generation result fields whose computation can fail: the
processed ingredient list and the raw `instructions` value
(`response_data["instructions"]`, line 334; its pydantic string validation
is out of scope). -/
structure RecipeGenResult where
  ingredients : List RecipeIngredientResult
  instructions : Json

/-- Model of `generate_recipe_from_meal` (lines 178-344) at the raw-reply
level: membership check, ingredient-id validation, model call (classified),
extraction, `response_data.get("ingredients", [])`, the per-entry loop, then
`response_data["instructions"]`. -/
def generateRecipePipeline (isMember : Bool)
    (ingredientIds : List (Nat × Option Nat)) (householdId : Nat)
    (catalog : List Ingredient) (gemini : Except String String) :
    Except PyException RecipeGenResult :=
  if !isMember then
    Except.error (PyException.appError
      (AppError.authorization "You must be a member of the household"))
  else
    match validateIngredientIds ingredientIds householdId with
    | some a => Except.error (PyException.appError a)
    | none =>
      match callGeminiWithRetry gemini with
      | Except.error a => Except.error (PyException.appError a)
      | Except.ok text =>
        match extractJsonFromResponse text with
        | Except.error a => Except.error (PyException.appError a)
        | Except.ok data =>
          match pyDictGet data "ingredients" (Json.arr []) with
          | Except.error d => Except.error (PyException.dataError d)
          | Except.ok ingsJ =>
            match pyIterate ingsJ with
            | Except.error d => Except.error (PyException.dataError d)
            | Except.ok entries =>
              match entries.mapM (processRecipeIngredientEntry catalog) with
              | Except.error d => Except.error (PyException.dataError d)
              | Except.ok ings =>
                match pyGetItem data "instructions" with
                | Except.error d => Except.error (PyException.dataError d)
                | Except.ok instr => Except.ok ⟨ings, instr⟩

/-- The `/ai/generate-recipe` endpoint: pipeline plus route wrapping. -/
def generateRecipeEndpoint (isMember : Bool)
    (ingredientIds : List (Nat × Option Nat)) (householdId : Nat)
    (catalog : List Ingredient) (gemini : Except String String) :
    Except AppError RecipeGenResult :=
  (generateRecipePipeline isMember ingredientIds householdId catalog gemini).mapError
    (routeWrapError "recipe")

/-- `len(x)` (line 519): lists, dicts and strings have a length; numbers,
booleans and null raise `TypeError`. -/
def pyLen : Json → Except PyDataError Nat
  | Json.arr xs => Except.ok xs.length
  | Json.obj fields => Except.ok fields.length
  | Json.str s => Except.ok s.data.length
  | _ => Except.error (PyDataError.typeError "object has no len")

/-- The `timedelta(days=day - 1)` argument (line 505): `day` must be a
number or boolean (`TypeError` otherwise); NaN raises `ValueError` and an
infinity `OverflowError` inside `timedelta` (calendar range limits of
`date` are out of scope). -/
def pyDayOffset : Json → Except PyDataError PyFloat
  | Json.num q => Except.ok (PyFloat.fin (q - 1))
  | Json.bool b => Except.ok (PyFloat.fin ((if b then 1 else 0) - 1))
  | Json.nanValue =>
    Except.error (PyDataError.valueError "cannot convert float NaN to integer")
  | Json.infValue =>
    Except.error (PyDataError.overflowError "days must have magnitude at most 999999999")
  | Json.negInfValue =>
    Except.error (PyDataError.overflowError "days must have magnitude at most 999999999")
  | _ => Except.error (PyDataError.typeError "unsupported operand type for subtraction")

/-- Lines 512-517 over raw reply values: each element of `ingredients_used`
goes to the matcher (whose `.lower()` needs a string), and the id is kept
when Python `if matched_id:` is truthy (not `None`, not `0`). -/
def matchedIdsForJson (names : List Json) (catalog : List Ingredient) :
    Except PyDataError (List Nat) :=
  names.foldlM
    (fun acc nj => do
      let n ← pyAsStr nj
      match (matchIngredientToHousehold n catalog none).1 with
      | some i => if i = 0 then Except.ok acc else Except.ok (acc ++ [i])
      | none => Except.ok acc)
    []

/-- One meal-plan reply entry after the loop body of lines 503-539, keeping
the raw values whose further validation is pydantic's (out of scope). -/
structure MealSuggestionResult where
  day : Json
  meal_date_offset : PyFloat
  meal_type : Json
  meal_name : Json
  matched_ingredient_ids : List Nat
  requires_shopping : Bool

/-- One iteration of the meal-plan reply loop (lines 503-539), in source
order: `meal_data["day"]`, the `timedelta` argument `day - 1`, the
`ingredients_used` / `additional_ingredients_needed` `get`s, the matching
loop, `len(additional) > 0`, then `meal_data["meal_type"]`,
`meal_data["meal_name"]` and the remaining `get`s. -/
def processMealPlanEntry (catalog : List Ingredient) (j : Json) :
    Except PyDataError MealSuggestionResult := do
  let dayJ ← pyGetItem j "day"
  let offset ← pyDayOffset dayJ
  let usedJ ← pyDictGet j "ingredients_used" (Json.arr [])
  let addJ ← pyDictGet j "additional_ingredients_needed" (Json.arr [])
  let usedList ← pyIterate usedJ
  let matched ← matchedIdsForJson usedList catalog
  let addLen ← pyLen addJ
  let mtJ ← pyGetItem j "meal_type"
  let mnJ ← pyGetItem j "meal_name"
  let _descJ ← pyDictGet j "description" Json.null
  let _prepJ ← pyDictGet j "estimated_prep_time" Json.null
  let _calJ ← pyDictGet j "estimated_calories" Json.null
  Except.ok
    { day := dayJ
      meal_date_offset := offset
      meal_type := mtJ
      meal_name := mnJ
      matched_ingredient_ids := matched
      requires_shopping := decide (0 < addLen) }

/-- The `BadRequestException` message for a reply without a `meal_plan`
field (lines 487-496; the bulleted guidance text is abbreviated). -/
def mealPlanMissingMsg : String :=
  "The AI could not generate a valid meal plan. Please try again with fewer restrictions or fewer days."

/-- Model of `generate_meal_plan_from_ingredients` (lines 346-552) at the
raw-reply level — the refinement of `generateMealPlanFromIngredients`
(which abstracts the reply as already parsed, for C6/C8) needed to
represent reply-shape failures: membership, the fail-fast
available-ingredients check, the model call (classified), extraction, the
`meal_plan` presence check, then the per-entry loop. -/
def generateMealPlanPipeline (isMember : Bool)
    (available : List AvailableIngredient) (useAvailableOnly : Bool)
    (catalog : List Ingredient) (gemini : Except String String) :
    Except PyException (List MealSuggestionResult) :=
  if !isMember then
    Except.error (PyException.appError
      (AppError.authorization "You must be a member of the household"))
  else if available.isEmpty && useAvailableOnly then
    Except.error (PyException.appError (AppError.badRequest noAvailableIngredientsMsg))
  else
    match callGeminiWithRetry gemini with
    | Except.error a => Except.error (PyException.appError a)
    | Except.ok text =>
      match extractJsonFromResponse text with
      | Except.error a => Except.error (PyException.appError a)
      | Except.ok data =>
        match pyContains data "meal_plan" with
        | Except.error d => Except.error (PyException.dataError d)
        | Except.ok false =>
          Except.error (PyException.appError (AppError.badRequest mealPlanMissingMsg))
        | Except.ok true =>
          match pyGetItem data "meal_plan" with
          | Except.error d => Except.error (PyException.dataError d)
          | Except.ok planJ =>
            match pyIterate planJ with
            | Except.error d => Except.error (PyException.dataError d)
            | Except.ok entries =>
              match entries.mapM (processMealPlanEntry catalog) with
              | Except.error d => Except.error (PyException.dataError d)
              | Except.ok suggestions => Except.ok suggestions

/-- The `/ai/generate-meal-plan` endpoint: pipeline plus route wrapping. -/
def generateMealPlanEndpoint (isMember : Bool)
    (available : List AvailableIngredient) (useAvailableOnly : Bool)
    (catalog : List Ingredient) (gemini : Except String String) :
    Except AppError (List MealSuggestionResult) :=
  (generateMealPlanPipeline isMember available useAvailableOnly catalog gemini).mapError
    (routeWrapError "meal plan")

/-- A `Meal` row as fetched by `MealRepository.get` during the service
checks: its household id plus the aggregation-relevant fields. -/
structure MealRow where
  household_id : Nat
  meal : Meal
deriving DecidableEq, Repr

/-- Model of `GroceryListService.generate_from_meals`
(`grocery_list_service.py` lines 36-71): membership check, then all meals
must exist, then all must belong to the household; on success the
repository aggregation runs. `fetched` lists the repository's result per
requested meal id. The `/grocery-lists/generate` route has no try/except of
its own, and these domain errors go straight to `main.py`'s `HTTPException`
handler. -/
def generateFromMealsService (isMember : Bool) (householdId : Nat)
    (fetched : List (Option MealRow)) : Except AppError (List GroceryListItem) :=
  if !isMember then
    Except.error (AppError.authorization "You must be a member of the household")
  else if fetched.any (fun m => m.isNone) then
    Except.error (AppError.badRequest "One or more meals not found")
  else if fetched.any (fun m =>
      match m with
      | some r => r.household_id ≠ householdId
      | none => false) then
    Except.error (AppError.badRequest "All meals must belong to the specified household")
  else
    Except.ok (generateFromMealsItems (fetched.filterMap (fun m => m.map MealRow.meal)))

lemma strAppend_ne_empty (a b : String) (ha : a ≠ "") : a ++ b ≠ "" := by
  intro h
  apply ha
  have hd := congrArg String.data h
  rw [String.data_append] at hd
  have h2 := List.append_eq_nil.mp hd
  cases a with
  | mk d =>
    have hd1 : d = [] := h2.1
    rw [hd1]

lemma appError_body_classified (e : AppError) :
    (httpExceptionHandler e).status_code = 403 ∧
        (httpExceptionHandler e).category = "Authorization" ∨
      (httpExceptionHandler e).status_code = 400 ∧
        (httpExceptionHandler e).category = "BadRequest" ∨
      (httpExceptionHandler e).status_code = 500 ∧
        (httpExceptionHandler e).category = "Error" := by
  cases e with
  | authorization m => exact Or.inl ⟨rfl, rfl⟩
  | badRequest m => exact Or.inr (Or.inl ⟨rfl, rfl⟩)
  | internal m => exact Or.inr (Or.inr ⟨rfl, rfl⟩)

lemma routeWrapped_message_ne (opName : String) (p : PyException)
    (happ : ∀ a, p = PyException.appError a → a.message ≠ "") :
    (routeWrapError opName p).message ≠ "" := by
  cases p with
  | appError a => exact happ a rfl
  | dataError d =>
    show "Failed to generate " ++ opName ++ ": " ++ d.pyStr ≠ ""
    exact strAppend_ne_empty _ _
      (strAppend_ne_empty _ _ (strAppend_ne_empty _ _ (by decide)))

lemma mapError_error_cases {e1 e2 α : Type} (f : e1 → e2) (x : Except e1 α)
    (e : e2) (h : x.mapError f = Except.error e) :
    ∃ p, x = Except.error p ∧ e = f p := by
  cases x with
  | ok v =>
    unfold Except.mapError at h
    dsimp only [] at h
    cases h
  | error p =>
    unfold Except.mapError at h
    dsimp only [] at h
    injection h with h1
    exact ⟨p, rfl, h1.symm⟩

lemma validateIngredientIds_message_ne :
    ∀ (ids : List (Nat × Option Nat)) (householdId : Nat) (a : AppError),
      validateIngredientIds ids householdId = some a → a.message ≠ "" := by
  intro ids
  induction ids with
  | nil => intro hh a h; cases h
  | cons p rest ih =>
    intro hh a h
    obtain ⟨ingId, res⟩ := p
    unfold validateIngredientIds at h
    cases res with
    | none =>
      dsimp only [] at h
      injection h with h1
      rw [← h1]
      exact strAppend_ne_empty _ _ (strAppend_ne_empty _ _ (by decide))
    | some hid =>
      dsimp only [] at h
      by_cases hne : hid ≠ hh
      · rw [if_pos hne] at h
        injection h with h1
        rw [← h1]
        exact strAppend_ne_empty _ _ (strAppend_ne_empty _ _ (by decide))
      · rw [if_neg hne] at h
        exact ih hh a h

lemma generateIngredients_appError_message_ne (isMember : Bool)
    (catalog : List Ingredient) (gemini : Except String String) (a : AppError)
    (h : generateIngredientsFromMeal isMember catalog gemini =
      Except.error (PyException.appError a)) : a.message ≠ "" := by
  unfold generateIngredientsFromMeal at h
  by_cases hm : (!isMember) = true
  · rw [if_pos hm] at h
    injection h with h1
    injection h1 with h2
    rw [← h2]
    decide
  · rw [if_neg hm] at h
    cases hg : callGeminiWithRetry gemini with
    | error a2 =>
      rw [hg] at h
      dsimp only [] at h
      injection h with h1
      injection h1 with h2
      rw [← h2]
      exact callGemini_error_message_ne gemini a2 hg
    | ok text =>
      rw [hg] at h
      dsimp only [] at h
      cases hx : extractJsonFromResponse text with
      | error a2 =>
        rw [hx] at h
        dsimp only [] at h
        injection h with h1
        injection h1 with h2
        rw [← h2, extract_error_shape text a2 hx]
        decide
      | ok data =>
        rw [hx] at h
        dsimp only [] at h
        cases hc : pyContains data "ingredients" with
        | error d =>
          rw [hc] at h
          dsimp only [] at h
          injection h with h1
          exact PyException.noConfusion h1
        | ok b =>
          rw [hc] at h
          cases b with
          | false =>
            dsimp only [] at h
            injection h with h1
            injection h1 with h2
            rw [← h2]
            decide
          | true =>
            dsimp only [] at h
            cases hgi : pyGetItem data "ingredients" with
            | error d =>
              rw [hgi] at h
              dsimp only [] at h
              injection h with h1
              exact PyException.noConfusion h1
            | ok ingsJ =>
              rw [hgi] at h
              dsimp only [] at h
              cases hit : pyIterate ingsJ with
              | error d =>
                rw [hit] at h
                dsimp only [] at h
                injection h with h1
                exact PyException.noConfusion h1
              | ok entries =>
                rw [hit] at h
                dsimp only [] at h
                cases hmp : entries.mapM (processIngredientEntry catalog) with
                | error d =>
                  rw [hmp] at h
                  dsimp only [] at h
                  injection h with h1
                  exact PyException.noConfusion h1
                | ok gens =>
                  rw [hmp] at h
                  dsimp only [] at h
                  cases h

lemma generateRecipe_appError_message_ne (isMember : Bool)
    (ingredientIds : List (Nat × Option Nat)) (householdId : Nat)
    (catalog : List Ingredient) (gemini : Except String String) (a : AppError)
    (h : generateRecipePipeline isMember ingredientIds householdId catalog gemini =
      Except.error (PyException.appError a)) : a.message ≠ "" := by
  unfold generateRecipePipeline at h
  by_cases hm : (!isMember) = true
  · rw [if_pos hm] at h
    injection h with h1
    injection h1 with h2
    rw [← h2]
    decide
  · rw [if_neg hm] at h
    cases hv : validateIngredientIds ingredientIds householdId with
    | some a2 =>
      rw [hv] at h
      dsimp only [] at h
      injection h with h1
      injection h1 with h2
      rw [← h2]
      exact validateIngredientIds_message_ne ingredientIds householdId a2 hv
    | none =>
      rw [hv] at h
      dsimp only [] at h
      cases hg : callGeminiWithRetry gemini with
      | error a2 =>
        rw [hg] at h
        dsimp only [] at h
        injection h with h1
        injection h1 with h2
        rw [← h2]
        exact callGemini_error_message_ne gemini a2 hg
      | ok text =>
        rw [hg] at h
        dsimp only [] at h
        cases hx : extractJsonFromResponse text with
        | error a2 =>
          rw [hx] at h
          dsimp only [] at h
          injection h with h1
          injection h1 with h2
          rw [← h2, extract_error_shape text a2 hx]
          decide
        | ok data =>
          rw [hx] at h
          dsimp only [] at h
          cases hdg : pyDictGet data "ingredients" (Json.arr []) with
          | error d =>
            rw [hdg] at h
            dsimp only [] at h
            injection h with h1
            exact PyException.noConfusion h1
          | ok ingsJ =>
            rw [hdg] at h
            dsimp only [] at h
            cases hit : pyIterate ingsJ with
            | error d =>
              rw [hit] at h
              dsimp only [] at h
              injection h with h1
              exact PyException.noConfusion h1
            | ok entries =>
              rw [hit] at h
              dsimp only [] at h
              cases hmp : entries.mapM (processRecipeIngredientEntry catalog) with
              | error d =>
                rw [hmp] at h
                dsimp only [] at h
                injection h with h1
                exact PyException.noConfusion h1
              | ok ings =>
                rw [hmp] at h
                dsimp only [] at h
                cases hin : pyGetItem data "instructions" with
                | error d =>
                  rw [hin] at h
                  dsimp only [] at h
                  injection h with h1
                  exact PyException.noConfusion h1
                | ok instr =>
                  rw [hin] at h
                  dsimp only [] at h
                  cases h

lemma generateMealPlan_appError_message_ne (isMember : Bool)
    (available : List AvailableIngredient) (useAvailableOnly : Bool)
    (catalog : List Ingredient) (gemini : Except String String) (a : AppError)
    (h : generateMealPlanPipeline isMember available useAvailableOnly catalog gemini =
      Except.error (PyException.appError a)) : a.message ≠ "" := by
  unfold generateMealPlanPipeline at h
  by_cases hm : (!isMember) = true
  · rw [if_pos hm] at h
    injection h with h1
    injection h1 with h2
    rw [← h2]
    decide
  · rw [if_neg hm] at h
    by_cases hav : (available.isEmpty && useAvailableOnly) = true
    · rw [if_pos hav] at h
      injection h with h1
      injection h1 with h2
      rw [← h2]
      decide
    · rw [if_neg hav] at h
      cases hg : callGeminiWithRetry gemini with
      | error a2 =>
        rw [hg] at h
        dsimp only [] at h
        injection h with h1
        injection h1 with h2
        rw [← h2]
        exact callGemini_error_message_ne gemini a2 hg
      | ok text =>
        rw [hg] at h
        dsimp only [] at h
        cases hx : extractJsonFromResponse text with
        | error a2 =>
          rw [hx] at h
          dsimp only [] at h
          injection h with h1
          injection h1 with h2
          rw [← h2, extract_error_shape text a2 hx]
          decide
        | ok data =>
          rw [hx] at h
          dsimp only [] at h
          cases hc : pyContains data "meal_plan" with
          | error d =>
            rw [hc] at h
            dsimp only [] at h
            injection h with h1
            exact PyException.noConfusion h1
          | ok b =>
            rw [hc] at h
            cases b with
            | false =>
              dsimp only [] at h
              injection h with h1
              injection h1 with h2
              rw [← h2]
              decide
            | true =>
              dsimp only [] at h
              cases hgi : pyGetItem data "meal_plan" with
              | error d =>
                rw [hgi] at h
                dsimp only [] at h
                injection h with h1
                exact PyException.noConfusion h1
              | ok planJ =>
                rw [hgi] at h
                dsimp only [] at h
                cases hit : pyIterate planJ with
                | error d =>
                  rw [hit] at h
                  dsimp only [] at h
                  injection h with h1
                  exact PyException.noConfusion h1
                | ok entries =>
                  rw [hit] at h
                  dsimp only [] at h
                  cases hmp : entries.mapM (processMealPlanEntry catalog) with
                  | error d =>
                    rw [hmp] at h
                    dsimp only [] at h
                    injection h with h1
                    exact PyException.noConfusion h1
                  | ok suggestions =>
                    rw [hmp] at h
                    dsimp only [] at h
                    cases h

/-- C9: every failure of the three generation operations and of the
aggregation operation is surfaced to the HTTP caller as a classified domain
error. The routes wrap any plain data error — e.g. a `KeyError` from a
missing reply field or a `ValueError` from an unrecognized unit/category
string — into `InternalServerException("Failed to generate <op>: ...")`
before re-raising, and `main.py`'s `HTTPException` handler serializes every
domain error with its status (403 Unauthorized, 400 BadRequest, 500
ServiceUnavailable/InternalError), the matching machine-readable category
string and a nonempty human-readable message; no unclassified exception
escapes to the caller. -/
theorem c9_failures_classified :
    (∀ (isMember : Bool) (catalog : List Ingredient)
        (gemini : Except String String) (e : AppError),
      generateIngredientsEndpoint isMember catalog gemini = Except.error e →
        classifiedBody (httpExceptionHandler e)) ∧
    (∀ (isMember : Bool) (ingredientIds : List (Nat × Option Nat))
        (householdId : Nat) (catalog : List Ingredient)
        (gemini : Except String String) (e : AppError),
      generateRecipeEndpoint isMember ingredientIds householdId catalog gemini =
          Except.error e →
        classifiedBody (httpExceptionHandler e)) ∧
    (∀ (isMember : Bool) (available : List AvailableIngredient)
        (useAvailableOnly : Bool) (catalog : List Ingredient)
        (gemini : Except String String) (e : AppError),
      generateMealPlanEndpoint isMember available useAvailableOnly catalog gemini =
          Except.error e →
        classifiedBody (httpExceptionHandler e)) ∧
    ∀ (isMember : Bool) (householdId : Nat) (fetched : List (Option MealRow))
        (e : AppError),
      generateFromMealsService isMember householdId fetched = Except.error e →
        classifiedBody (httpExceptionHandler e) := by
  refine ⟨?_, ?_, ?_, ?_⟩
  · intro isMember catalog gemini e h
    obtain ⟨p, hp, he⟩ := mapError_error_cases (routeWrapError "ingredients") _ e h
    subst he
    refine ⟨appError_body_classified _, ?_⟩
    exact routeWrapped_message_ne _ p fun a ha =>
      generateIngredients_appError_message_ne isMember catalog gemini a
        (hp.symm.symm.trans (congrArg Except.error ha))
  · intro isMember ingredientIds householdId catalog gemini e h
    obtain ⟨p, hp, he⟩ := mapError_error_cases (routeWrapError "recipe") _ e h
    subst he
    refine ⟨appError_body_classified _, ?_⟩
    exact routeWrapped_message_ne _ p fun a ha =>
      generateRecipe_appError_message_ne isMember ingredientIds householdId catalog
        gemini a (hp.trans (congrArg Except.error ha))
  · intro isMember available useAvailableOnly catalog gemini e h
    obtain ⟨p, hp, he⟩ := mapError_error_cases (routeWrapError "meal plan") _ e h
    subst he
    refine ⟨appError_body_classified _, ?_⟩
    exact routeWrapped_message_ne _ p fun a ha =>
      generateMealPlan_appError_message_ne isMember available useAvailableOnly catalog
        gemini a (hp.trans (congrArg Except.error ha))
  · intro isMember householdId fetched e h
    refine ⟨appError_body_classified _, ?_⟩
    unfold generateFromMealsService at h
    by_cases hm : (!isMember) = true
    · rw [if_pos hm] at h
      injection h with h1
      rw [← h1]
      decide
    · rw [if_neg hm] at h
      by_cases h2 : (fetched.any fun m => m.isNone) = true
      · rw [if_pos h2] at h
        injection h with h1
        rw [← h1]
        decide
      · rw [if_neg h2] at h
        by_cases h3 : (fetched.any fun m =>
            match m with
            | some r => r.household_id ≠ householdId
            | none => false) = true
        · rw [if_pos h3] at h
          injection h with h1
          rw [← h1]
          decide
        · rw [if_neg h3] at h
          cases h

/-- C9 witness: concrete failures of all four operations — an unrecognized
unit string, an unknown ingredient id, a reply entry missing its `day`
field, and a missing meal — each surfaced as a classified body. -/
theorem c9_failures_classified_witness :
    classifiedBody (httpExceptionHandler (AppError.internal
      "Failed to generate ingredients: bogus is not a valid UnitOfMeasurement")) ∧
    classifiedBody (httpExceptionHandler (AppError.badRequest
      "Ingredient with ID 5 not found")) ∧
    classifiedBody (httpExceptionHandler (AppError.internal
      "Failed to generate meal plan: \x27day\x27")) ∧
    classifiedBody (httpExceptionHandler (AppError.badRequest
      "One or more meals not found")) :=
  ⟨c9_failures_classified.1 true []
      (Except.ok "\x7b\"ingredients\": [\x7b\"name\": \"x\", \"category\": \"other\", \"quantity\": 1, \"unit\": \"bogus\"\x7d]\x7d")
      (AppError.internal
        "Failed to generate ingredients: bogus is not a valid UnitOfMeasurement") rfl,
    c9_failures_classified.2.1 true [(5, none)] 1 [] (Except.ok "x")
      (AppError.badRequest "Ingredient with ID 5 not found") rfl,
    c9_failures_classified.2.2.1 true [⟨"egg", 1, 1, "piece", "other"⟩] false []
      (Except.ok "\x7b\"meal_plan\": [\x7b\x7d]\x7d")
      (AppError.internal "Failed to generate meal plan: \x27day\x27") rfl,
    c9_failures_classified.2.2.2 true 1 [none]
      (AppError.badRequest "One or more meals not found") rfl⟩

end MealSync
